import Mathlib

/-!
Shallow embedding of the chunk-based binary decoder of `lxoReader.py`
(class `LXOReader` plus the data-model classes `LXOFile`, `LXOLayer`,
`LXOItem`, `ActionLayer`, `ActionLayerItem`), together with theorems that
settle the specification claims about it.

Modelling conventions:
* A byte stream is a `List Nat` (each entry is one byte value, 0–255) with a
  forward cursor `pos`; the shared remaining-byte budget `self.modSize` is an
  `Int` (it is freely decremented in the Python code and may go negative).
* Every fallible Python operation returns `Except PyErr (α × Rd)`; the
  constructors of `PyErr` name the Python exception that the corresponding
  source line raises (`struct.error` on short reads is `truncated`, etc.).
  A raised exception aborts the whole decode, so no state is carried on the
  error path.
* IEEE-754 floats are never interpreted numerically by any claim, so a
  4-byte float is carried as its big-endian 32-bit bit pattern (a `Nat`).
* Python dicts preserve insertion order; they are modelled as association
  lists where updating an existing key keeps its position and a new key is
  appended at the end.
* The module-level `DEBUG` flag is `False` in the decode path that the spec
  covers (debug console output is explicitly out of scope), so statements
  guarded by `if DEBUG:` are not part of the embedding.
* Unbounded `while` loops are given a fuel parameter; exhausting fuel yields
  the artificial `outOfFuel` result, which no theorem below ever treats as a
  Python behaviour.
-/

set_option linter.unusedVariables false

/-- The Python exceptions that the decoder can raise, by source of the raise:
`truncated` = `struct.error` on a short read; `typeError` = `TypeError`
(e.g. `'\x00' + val[1:]` in `readVX`, `"" + int` in the CHNC handler,
subscripting `None`); `nameError` = `NameError` (the unbound `chunkID` in
`__readACTN`); `valueError` = `ValueError` (`chr` of a negative number in
`readID4`); `attributeError` = `AttributeError` (attribute access on a `None`
current layer / current action item); `unknownDatatype` = the explicit
`raise Exception("unknown datatype")` in `readValue`; `indexError` =
`IndexError` (list index out of range); `outOfFuel` is the fuel artefact. -/
inductive PyErr where
  | truncated
  | typeError
  | nameError
  | valueError
  | attributeError
  | unknownDatatype
  | indexError
  | outOfFuel
deriving DecidableEq, Repr

/-- The reader's stream-cursor state: the underlying bytes, the cursor
`pos` (Python: the file object's position) and the remaining-byte budget
`modSize` (Python: `self.modSize`). -/
structure Rd where
  data : List Nat
  pos : Nat
  modSize : Int
deriving DecidableEq, Repr

deriving instance DecidableEq for Except

/-- `self.file.read n` followed by `struct.unpack`: yields exactly `n` bytes
or fails with `struct.error` when fewer are available. -/
def readBytes (n : Nat) (r : Rd) : Except PyErr (List Nat × Rd) :=
  if r.pos + n ≤ r.data.length then
    .ok ((r.data.drop r.pos).take n, { r with pos := r.pos + n })
  else
    .error .truncated

/-- `self.file.seek (n, 1)`: advance the cursor without reading. -/
def skipRd (n : Nat) (r : Rd) : Rd :=
  { r with pos := r.pos + n, modSize := r.modSize - (n : Int) }

/-- Big-endian value of a byte list. -/
def beVal (bs : List Nat) : Nat :=
  bs.foldl (fun a b => a * 256 + b) 0

/-- Reinterpret an unsigned 32-bit value as signed (struct format `>1l`). -/
def toI32 (v : Nat) : Int :=
  if v < 2 ^ 31 then (v : Int) else (v : Int) - 2 ^ 32

/-- Reinterpret an unsigned 16-bit value as signed (struct format `>1h`). -/
def toI16 (v : Nat) : Int :=
  if v < 2 ^ 15 then (v : Int) else (v : Int) - 2 ^ 16

/-- Python `chr`: fails with `ValueError` outside `[0, 0x110000)`.
(The byte-level uses below only ever hit values < 256 or negatives, so the
surrogate range never arises.) -/
def pyChr (n : Int) : Except PyErr Char :=
  if 0 ≤ n ∧ n < 0x110000 then .ok (Char.ofNat n.toNat) else .error .valueError

/-- `LXOReader.readID4`: unpack 4 bytes as a *signed* long (`>1l`) and build
the tag string as
`chr(val >> 24) + chr(val >> 16 & 255) + chr(val >> 8 & 255) + chr(val & 255)`.
Python's `>>` on negative ints is an arithmetic (floor) shift, and `& 255`
of a negative int is its value modulo 256; Lean's `>>>` and `%` on `Int`
agree with both. -/
def readID4 (r : Rd) : Except PyErr (String × Rd) := do
  let r0 : Rd := { r with modSize := r.modSize - 4 }
  let (bs, r1) ← readBytes 4 r0
  let val : Int := toI32 (beVal bs)
  let c0 ← pyChr (val >>> (24 : Nat))
  let c1 ← pyChr ((val >>> (16 : Nat)) % 256)
  let c2 ← pyChr ((val >>> (8 : Nat)) % 256)
  let c3 ← pyChr (val % 256)
  .ok (String.mk [c0, c1, c2, c3], r1)

/-- `LXOReader.readU1`. -/
def readU1 (r : Rd) : Except PyErr (Nat × Rd) := do
  let (bs, r1) ← readBytes 1 ({ r with modSize := r.modSize - 1 })
  .ok (beVal bs, r1)

/-- `LXOReader.readU14`: four unsigned bytes as a list. -/
def readU14 (r : Rd) : Except PyErr (List Nat × Rd) := do
  let r0 : Rd := { r with modSize := r.modSize - 4 }
  let (b0, r1) ← readBytes 1 r0
  let (b1, r2) ← readBytes 1 r1
  let (b2, r3) ← readBytes 1 r2
  let (b3, r4) ← readBytes 1 r3
  .ok ([beVal b0, beVal b1, beVal b2, beVal b3], r4)

/-- `LXOReader.readU2` (struct `>1H`). -/
def readU2 (r : Rd) : Except PyErr (Nat × Rd) := do
  let (bs, r1) ← readBytes 2 ({ r with modSize := r.modSize - 2 })
  .ok (beVal bs, r1)

/-- `LXOReader.readU4` (struct `>1L`). -/
def readU4 (r : Rd) : Except PyErr (Nat × Rd) := do
  let (bs, r1) ← readBytes 4 ({ r with modSize := r.modSize - 4 })
  .ok (beVal bs, r1)

/-- `LXOReader.readVX`: 2 bytes as unsigned 16-bit; below `0xFF00` that is
the result.  Otherwise the source runs `val += self.file.read(2)` and then
`val = '\x00' + val[1:]`, which concatenates a `str` with `bytes` — under
Python 3 this raises `TypeError` before the masked 4-byte value is ever
computed, so the wide branch can never return. -/
def readVX (r : Rd) : Except PyErr (Nat × Rd) := do
  let (bs, r1) ← readBytes 2 r
  let out := beVal bs
  if out < 0xFF00 then
    .ok (out, { r1 with modSize := r1.modSize - 2 })
  else
    .error .typeError

/-- `LXOReader.readI2` (struct `>1h`). -/
def readI2 (r : Rd) : Except PyErr (Int × Rd) := do
  let (bs, r1) ← readBytes 2 ({ r with modSize := r.modSize - 2 })
  .ok (toI16 (beVal bs), r1)

/-- `LXOReader.readI4` (struct `>1l`). -/
def readI4 (r : Rd) : Except PyErr (Int × Rd) := do
  let (bs, r1) ← readBytes 4 ({ r with modSize := r.modSize - 4 })
  .ok (toI32 (beVal bs), r1)

/-- `LXOReader.readInt` (struct `>1i`, identical width and signedness to
`readI4`). -/
def readInt (r : Rd) : Except PyErr (Int × Rd) :=
  readI4 r

/-- `LXOReader.readF4` / `LXOReader.readFloat`: a 4-byte big-endian IEEE-754
float, carried as its 32-bit bit pattern (no claim interprets the value). -/
def readF4 (r : Rd) : Except PyErr (Nat × Rd) := do
  let (bs, r1) ← readBytes 4 ({ r with modSize := r.modSize - 4 })
  .ok (beVal bs, r1)

/-- `LXOReader.readFloat` is the same operation as `readF4`. -/
def readFloat (r : Rd) : Except PyErr (Nat × Rd) :=
  readF4 r

/-- `bytes.rstrip(b'\0')`: drop all trailing zero bytes. -/
def rstripZeros (bs : List Nat) : List Nat :=
  (bs.reverse.dropWhile (· == 0)).reverse

/-- Is `b` a UTF-8 continuation byte (`0x80–0xBF`)? -/
def isCont (b : Nat) : Bool :=
  0x80 ≤ b && b ≤ 0xBF

/-- Range check for the first continuation byte of a 3-byte sequence
(UTF-8 excludes overlong encodings and surrogates: lead `0xE0` requires
`0xA0–0xBF`, lead `0xED` requires `0x80–0x9F`). -/
def cont1ok3 (b c : Nat) : Bool :=
  if b == 0xE0 then 0xA0 ≤ c && c ≤ 0xBF
  else if b == 0xED then 0x80 ≤ c && c ≤ 0x9F
  else isCont c

/-- Range check for the first continuation byte of a 4-byte sequence
(lead `0xF0` requires `0x90–0xBF`, lead `0xF4` requires `0x80–0x8F`). -/
def cont1ok4 (b c : Nat) : Bool :=
  if b == 0xF0 then 0x90 ≤ c && c ≤ 0xBF
  else if b == 0xF4 then 0x80 ≤ c && c ≤ 0x8F
  else isCont c

/-- UTF-8 decoding with Python's `errors="ignore"` handler: an invalid or
incomplete sequence contributes nothing to the output and decoding resumes
after its maximal valid subpart (CPython's error ranges). -/
def utf8IgnF : Nat → List Nat → List Char
  | 0, _ => []
  | _, [] => []
  | fuel + 1, b :: rest =>
    if b < 0x80 then Char.ofNat b :: utf8IgnF fuel rest
    else if 0xC2 ≤ b && b ≤ 0xDF then
      match rest with
      | [] => []
      | c :: rest2 =>
        if isCont c then
          Char.ofNat ((b - 0xC0) * 64 + (c - 0x80)) :: utf8IgnF fuel rest2
        else utf8IgnF fuel (c :: rest2)
    else if 0xE0 ≤ b && b ≤ 0xEF then
      match rest with
      | [] => []
      | c :: rest2 =>
        if cont1ok3 b c then
          match rest2 with
          | [] => []
          | d :: rest3 =>
            if isCont d then
              Char.ofNat ((b - 0xE0) * 4096 + (c - 0x80) * 64 + (d - 0x80)) ::
                utf8IgnF fuel rest3
            else utf8IgnF fuel (d :: rest3)
        else utf8IgnF fuel (c :: rest2)
    else if 0xF0 ≤ b && b ≤ 0xF4 then
      match rest with
      | [] => []
      | c :: rest2 =>
        if cont1ok4 b c then
          match rest2 with
          | [] => []
          | d :: rest3 =>
            if isCont d then
              match rest3 with
              | [] => []
              | e :: rest4 =>
                if isCont e then
                  Char.ofNat ((b - 0xF0) * 262144 + (c - 0x80) * 4096 +
                      (d - 0x80) * 64 + (e - 0x80)) :: utf8IgnF fuel rest4
                else utf8IgnF fuel (e :: rest4)
            else utf8IgnF fuel (d :: rest3)
        else utf8IgnF fuel (c :: rest2)
    else utf8IgnF fuel rest

/-- UTF-8 decoding with Python's `errors="ignore"` handler (each step of
`utf8IgnF` consumes at least one byte, so fuel `bs.length` never runs out).
-/
def utf8Ign (bs : List Nat) : List Char :=
  utf8IgnF bs.length bs


/-- `bytes.decode("utf-8", "ignore")` as a `String`. -/
def utf8IgnStr (bs : List Nat) : String :=
  ⟨utf8Ign bs⟩

/-- Modelled from the spec: UTF-8 decoding with the *replacement* policy
("substituting the replacement policy for undecodable bytes") — each invalid
or incomplete sequence yields U+FFFD instead of being dropped.  This is the
decode step the claim attributes to `readS0`; it exists only to be compared
with the source's `errors="ignore"` behaviour. -/
def utf8RepF : Nat → List Nat → List Char
  | 0, _ => []
  | _, [] => []
  | fuel + 1, b :: rest =>
    if b < 0x80 then Char.ofNat b :: utf8RepF fuel rest
    else if 0xC2 ≤ b && b ≤ 0xDF then
      match rest with
      | [] => [Char.ofNat 0xFFFD]
      | c :: rest2 =>
        if isCont c then
          Char.ofNat ((b - 0xC0) * 64 + (c - 0x80)) :: utf8RepF fuel rest2
        else Char.ofNat 0xFFFD :: utf8RepF fuel (c :: rest2)
    else if 0xE0 ≤ b && b ≤ 0xEF then
      match rest with
      | [] => [Char.ofNat 0xFFFD]
      | c :: rest2 =>
        if cont1ok3 b c then
          match rest2 with
          | [] => [Char.ofNat 0xFFFD]
          | d :: rest3 =>
            if isCont d then
              Char.ofNat ((b - 0xE0) * 4096 + (c - 0x80) * 64 + (d - 0x80)) ::
                utf8RepF fuel rest3
            else Char.ofNat 0xFFFD :: utf8RepF fuel (d :: rest3)
        else Char.ofNat 0xFFFD :: utf8RepF fuel (c :: rest2)
    else if 0xF0 ≤ b && b ≤ 0xF4 then
      match rest with
      | [] => [Char.ofNat 0xFFFD]
      | c :: rest2 =>
        if cont1ok4 b c then
          match rest2 with
          | [] => [Char.ofNat 0xFFFD]
          | d :: rest3 =>
            if isCont d then
              match rest3 with
              | [] => [Char.ofNat 0xFFFD]
              | e :: rest4 =>
                if isCont e then
                  Char.ofNat ((b - 0xF0) * 262144 + (c - 0x80) * 4096 +
                      (d - 0x80) * 64 + (e - 0x80)) :: utf8RepF fuel rest4
                else Char.ofNat 0xFFFD :: utf8RepF fuel (e :: rest4)
            else Char.ofNat 0xFFFD :: utf8RepF fuel (d :: rest3)
        else Char.ofNat 0xFFFD :: utf8RepF fuel (c :: rest2)
    else Char.ofNat 0xFFFD :: utf8RepF fuel rest

/-- Modelled from the spec: the replacement-policy decoder. -/
def utf8Rep (bs : List Nat) : List Char :=
  utf8RepF bs.length bs


/-- Modelled from the spec: `utf8Rep` as a `String`. -/
def utf8RepStr (bs : List Nat) : String :=
  ⟨utf8Rep bs⟩

/-- The loop body of `LXOReader.readS0`: read one byte at a time into the
accumulator; when the accumulated byte count is even *and* the last byte is
zero, strip all trailing zero bytes and decode the rest as UTF-8 with the
`ignore` error handler. -/
def readS0Aux : Nat → Rd → List Nat → Except PyErr (String × Rd)
  | 0, _, _ => .error .truncated
  | fuel + 1, r, acc =>
    if h : r.pos < r.data.length then
      let b := r.data.get ⟨r.pos, h⟩
      let r1 : Rd := { r with pos := r.pos + 1, modSize := r.modSize - 1 }
      let acc1 := acc ++ [b]
      if acc1.length % 2 = 0 ∧ acc1.getLast? = some 0 then
        .ok (utf8IgnStr (rstripZeros acc1), r1)
      else
        readS0Aux fuel r1 acc1
    else
      .error .truncated

/-- `LXOReader.readS0`.  Each loop pass consumes one byte, so fuel
`r.data.length - r.pos + 1` always reaches either the terminator test or
the end-of-stream `truncated` error before running out; the fuel-0 result
is also `truncated`, so the fuel is unobservable. -/
def readS0 (r : Rd) : Except PyErr (String × Rd) :=
  readS0Aux (r.data.length - r.pos + 1) r []

/-- `LXOReader.readVEC12`: three consecutive 4-byte floats. -/
def readVEC12 (r : Rd) : Except PyErr (List Nat × Rd) := do
  let (f0, r1) ← readF4 r
  let (f1, r2) ← readF4 r1
  let (f2, r3) ← readF4 r2
  .ok ([f0, f1, f2], r3)

/-- `LXOReader.readblob`: `size` raw bytes read one at a time (an `Int`,
because call sites compute it as `chunkSize - (sizeSnap - self.modSize)`;
`range` of a negative number is empty, while `self.modSize -= size` still
applies).  All call sites in the walker supply a size, so the
`raise Exception('need blob size')` branch is never reachable here. -/
def readblob (size : Int) (r : Rd) : Except PyErr (List Nat × Rd) :=
  let r0 : Rd := { r with modSize := r.modSize - size }
  if r0.pos + size.toNat ≤ r0.data.length then
    .ok ((r0.data.drop r0.pos).take size.toNat, { r0 with pos := r0.pos + size.toNat })
  else
    .error .truncated

/-- A decoded channel value: Python hands back an `int`, a `float` or a
`str` depending on the datatype tag. -/
inductive PyVal where
  | int : Int → PyVal
  | float : Nat → PyVal
  | str : String → PyVal
deriving DecidableEq, Repr

/-- `datatype & ~0x20` on a non-negative Python int: clear bit 5. -/
def maskDatatype (d : Nat) : Nat :=
  if d.testBit 5 then d - 32 else d

/-- `LXOReader.readValue`: mask the variant bit `0x20` off the datatype and
dispatch — 1/17 → signed 4-byte int, 2/18 → 4-byte float, 3/19 →
null-terminated string, anything else raises `Exception("unknown datatype")`. -/
def readValue (datatype : Nat) (r : Rd) : Except PyErr (PyVal × Rd) :=
  let dt := maskDatatype datatype
  if dt = 1 ∨ dt = 17 then do
    let (v, r1) ← readInt r
    .ok (.int v, r1)
  else if dt = 2 ∨ dt = 18 then do
    let (v, r1) ← readFloat r
    .ok (.float v, r1)
  else if dt = 3 ∨ dt = 19 then do
    let (s, r1) ← readS0 r
    .ok (.str s, r1)
  else
    .error .unknownDatatype

/-- Ordered-dict lookup on an association list (Python `d[k]` / `k in d`). -/
def dget {β : Type} (k : String) : List (String × β) → Option β
  | [] => none
  | (k', v) :: rest => if k' = k then some v else dget k rest

/-- Ordered-dict update `d[k] = v`: an existing key keeps its position, a
new key is appended at the end (Python dicts preserve insertion order). -/
def dset {β : Type} (k : String) (v : β) : List (String × β) → List (String × β)
  | [] => [(k, v)]
  | (k', v') :: rest => if k' = k then (k, v) :: rest else (k', v') :: dset k v rest

/-- Same ordered-dict primitives for `Nat` keys (the VMAP/VMAD value dicts
are keyed by point/polygon index). -/
def ndget {β : Type} (k : Nat) : List (Nat × β) → Option β
  | [] => none
  | (k', v) :: rest => if k' = k then some v else ndget k rest

/-- `d[k] = v` for `Nat` keys. -/
def ndset {β : Type} (k : Nat) (v : β) : List (Nat × β) → List (Nat × β)
  | [] => [(k, v)]
  | (k', v') :: rest => if k' = k then (k, v) :: rest else (k', v') :: ndset k v rest

/-- `LXOLayer`: one mesh layer.  `subdLevel` receives the raw bit pattern of
the `refineSubD` float (see `readF4`); `vmaps` of the source is always
`None` and never touched by the decoder, so it is omitted. -/
structure LXOLayer where
  name : String
  isSubD : Bool
  subdLevel : Nat
  psubLevel : Nat
  vertCount : Nat
  polyCount : Nat
  referenceID : Nat
  points : List (List Nat)
  polygons : List (List Nat)
  ptags : List (String × List (Nat × Nat))
  materials : List (String × List Nat)
  uvMaps : List (String × List (Nat × List Nat))
  uvMapsDisco : List (String × List (Nat × List (Nat × List Nat)))
deriving DecidableEq, Repr

/-- `LXOLayer.__init__` as called by `LXOFile.addLayer`. -/
def mkLayer (name : String) (subdLevel psubLevel id : Nat) : LXOLayer :=
  { name := name
    isSubD := false
    subdLevel := subdLevel
    psubLevel := psubLevel
    vertCount := 0
    polyCount := 0
    referenceID := id
    points := []
    polygons := []
    ptags := []
    materials := []
    uvMaps := []
    uvMapsDisco := [] }

/-- `LXOItem`: one scene-graph node.  The `GRAD`/`UCHN`/`CLNK` lists of the
source are only written from dead branches (`elif False and ...`), so they
stay empty and are omitted here. -/
structure LXOItem where
  id : Nat
  name : String
  vname : Option String
  typename : String
  channel : List (String × PyVal)
  CHNL : List (String × Nat × PyVal)
  CHNV : List (String × List (String × PyVal))
  itemTags : List (String × String)
  packages : List String
  CHNC : List String
  graphLinks : List (String × Int × Int)
  LAYR : Option (Nat × Nat × List Nat)
deriving DecidableEq, Repr

/-- `LXOItem.__init__` as called by `LXOFile.addItem`. -/
def mkItem (name : String) (id : Nat) (typename : String) : LXOItem :=
  { id := id
    name := name
    vname := none
    typename := typename
    channel := []
    CHNL := []
    CHNV := []
    itemTags := []
    packages := []
    CHNC := []
    graphLinks := []
    LAYR := none }

/-- `ActionLayerItem`: one per-item override record inside an action layer. -/
structure ALItem where
  id : Nat
  CHAN : List (String × Nat × Nat × PyVal)
  GRAD : List (List Nat)
  stringChannels : List (String × String × String)
deriving DecidableEq, Repr

/-- `ActionLayerItem.__init__`. -/
def mkALItem (id : Nat) : ALItem :=
  { id := id, CHAN := [], GRAD := [], stringChannels := [] }

/-- `ActionLayer`: one named animation layer. -/
structure ActionLayer where
  name : String
  type : String
  index : Nat
  items : List ALItem
deriving DecidableEq, Repr

/-- `LXOFile`: the accumulating result aggregate. -/
structure LXOFile where
  version : Option Nat
  appversion : Option String
  encoding : Option Nat
  size : Nat
  type : Option String
  items : List LXOItem
  layers : List LXOLayer
  actionLayers : List ActionLayer
  channelNames : Option (List String)
  tagnames : Option (List String)
deriving DecidableEq, Repr

/-- `LXOFile.__init__`. -/
def mkLXOFile : LXOFile :=
  { version := none
    appversion := none
    encoding := none
    size := 0
    type := none
    items := []
    layers := []
    actionLayers := []
    channelNames := none
    tagnames := none }

/-- `LXOLayer.generateMaterials`: walk `self.ptags['MATR']` (if present) and
append each polygon index to `self.materials[tagnames[tagIndex]]`, creating
the entry on first use.  `self.parent.tagnames` is `None` before a TAGS
chunk was decoded (subscripting it raises `TypeError`) and a too-large tag
index raises `IndexError`. -/
def lookupTagname (tagnames : Option (List String)) (i : Nat) : Except PyErr String :=
  match tagnames with
  | none => .error .typeError
  | some tn => if h : i < tn.length then .ok (tn.get ⟨i, h⟩) else .error .indexError

/-- One step of `generateMaterials`: `materials[name].append(polyIndex)`
with `materials[name] = []` created first when absent. -/
def matAppend (name : String) (polyIndex : Nat)
    (mats : List (String × List Nat)) : List (String × List Nat) :=
  match dget name mats with
  | none => mats ++ [(name, [polyIndex])]
  | some l => dset name (l ++ [polyIndex]) mats

/-- The fold inside `generateMaterials`. -/
def generateMaterialsAux (tagnames : Option (List String)) :
    List (Nat × Nat) → List (String × List Nat) → Except PyErr (List (String × List Nat))
  | [], mats => .ok mats
  | (polyIndex, tagIndex) :: rest, mats => do
    let name ← lookupTagname tagnames tagIndex
    generateMaterialsAux tagnames rest (matAppend name polyIndex mats)

/-- `LXOLayer.generateMaterials` (`self.parent` supplies `tagnames`). -/
def generateMaterials (tagnames : Option (List String)) (layer : LXOLayer) :
    Except PyErr LXOLayer :=
  match dget "MATR" layer.ptags with
  | none => .ok layer
  | some matr => do
    let mats ← generateMaterialsAux tagnames matr layer.materials
    .ok { layer with materials := mats }

/-- `lxoFile.channelNames[index]`: `None` is not subscriptable
(`TypeError`); an out-of-range index raises `IndexError`. -/
def lookupChannelName (channelNames : Option (List String)) (i : Nat) :
    Except PyErr String :=
  match channelNames with
  | none => .error .typeError
  | some l => if h : i < l.length then .ok (l.get ⟨i, h⟩) else .error .indexError

/-- Apply an update to the current layer; Python's
`currentLayer.<attr> = ...` raises `AttributeError` when `currentLayer`
is still `None` (no LAYR chunk decoded yet). -/
def curLayerMod (f : LXOLayer → LXOLayer) : Option LXOLayer → Except PyErr (Option LXOLayer)
  | none => .error .attributeError
  | some l => .ok (some (f l))

/-- Read `n` strings (the CHNM count loop). -/
def strsTimes : Nat → Rd → Except PyErr (List String × Rd)
  | 0, r => .ok ([], r)
  | n + 1, r => do
    let (s, r1) ← readS0 r
    let (rest, r2) ← strsTimes n r1
    .ok (s :: rest, r2)

/-- Read `n` variable-width indices (the POLS vertex loop). -/
def vxTimes : Nat → Rd → Except PyErr (List Nat × Rd)
  | 0, r => .ok ([], r)
  | n + 1, r => do
    let (v, r1) ← readVX r
    let (rest, r2) ← vxTimes n r1
    .ok (v :: rest, r2)

/-- Read `n` floats (the VMAP/VMAD dimension loop). -/
def floatTimes : Nat → Rd → Except PyErr (List Nat × Rd)
  | 0, r => .ok ([], r)
  | n + 1, r => do
    let (v, r1) ← readFloat r
    let (rest, r2) ← floatTimes n r1
    .ok (v :: rest, r2)

/-- The TAGS chunk loop: `while (sizeSnap - self.modSize) < chunkSize:
tags.append(self.readS0())`. -/
def tagsLoop (chunkSize : Nat) (sizeSnap : Int) :
    Nat → Rd → List String → Except PyErr (List String × Rd)
  | 0, r, acc =>
    if sizeSnap - r.modSize < (chunkSize : Int) then .error .outOfFuel else .ok (acc, r)
  | fuel + 1, r, acc =>
    if sizeSnap - r.modSize < (chunkSize : Int) then do
      let (s, r1) ← readS0 r
      tagsLoop chunkSize sizeSnap fuel r1 (acc ++ [s])
    else .ok (acc, r)

/-- The POLS polygon loop: each pass reads a `u16` vertex count, that many
`VX` point indices, and appends the group to `currentLayer.polygons`. -/
def polsLoop (chunkSize : Nat) (sizeSnap : Int) :
    Nat → Rd → Option LXOLayer → Except PyErr (Rd × Option LXOLayer)
  | 0, r, cl =>
    if sizeSnap - r.modSize < (chunkSize : Int) then .error .outOfFuel else .ok (r, cl)
  | fuel + 1, r, cl =>
    if sizeSnap - r.modSize < (chunkSize : Int) then do
      let (vertCount, r1) ← readU2 r
      let (polyPoints, r2) ← vxTimes vertCount r1
      let cl1 ← curLayerMod (fun l => { l with polygons := l.polygons ++ [polyPoints] }) cl
      polsLoop chunkSize sizeSnap fuel r2 cl1
    else .ok (r, cl)

/-- The POLS chunk decoder (`elif chunkID == 'POLS'`).  The local
`polyCount` of the source is initialised to 0 and never incremented, so the
final `currentLayer.polyCount += polyCount` adds 0 — but it still performs
an attribute access on the current layer. -/
def decodePOLS (fuel chunkSize : Nat) (sizeSnap : Int) (r : Rd) (cl : Option LXOLayer) :
    Except PyErr (Rd × Option LXOLayer) := do
  let (polyType, r1) ← readID4 r
  let cl1 ←
    if polyType = "SUBD" ∨ polyType = "PSUB" then
      curLayerMod (fun l => { l with isSubD := true }) cl
    else .ok cl
  let (r2, cl2) ← polsLoop chunkSize sizeSnap fuel r1 cl1
  let cl3 ← curLayerMod (fun l => { l with polyCount := l.polyCount + 0 }) cl2
  .ok (r2, cl3)

/-- The PNTS point loop. -/
def pntsLoop (chunkSize : Nat) (sizeSnap : Int) :
    Nat → Rd → List (List Nat) → Except PyErr (List (List Nat) × Rd)
  | 0, r, acc =>
    if sizeSnap - r.modSize < (chunkSize : Int) then .error .outOfFuel else .ok (acc, r)
  | fuel + 1, r, acc =>
    if sizeSnap - r.modSize < (chunkSize : Int) then do
      let (v, r1) ← readVEC12 r
      pntsLoop chunkSize sizeSnap fuel r1 (acc ++ [v])
    else .ok (acc, r)

/-- The PNTS chunk decoder: collect vectors, then
`currentLayer.points = points` (a plain replacement). -/
def decodePNTS (fuel chunkSize : Nat) (sizeSnap : Int) (r : Rd) (cl : Option LXOLayer) :
    Except PyErr (Rd × Option LXOLayer) := do
  let (points, r1) ← pntsLoop chunkSize sizeSnap fuel r []
  let cl1 ← curLayerMod (fun l => { l with points := points }) cl
  .ok (r1, cl1)

/-- The VMAP entry loop: `values[index] = [dimension floats]`. -/
def vmapLoop (chunkSize : Nat) (sizeSnap : Int) (dimension : Nat) :
    Nat → Rd → List (Nat × List Nat) → Except PyErr (List (Nat × List Nat) × Rd)
  | 0, r, values =>
    if sizeSnap - r.modSize < (chunkSize : Int) then .error .outOfFuel else .ok (values, r)
  | fuel + 1, r, values =>
    if sizeSnap - r.modSize < (chunkSize : Int) then do
      let (index, r1) ← readVX r
      let (vv, r2) ← floatTimes dimension r1
      vmapLoop chunkSize sizeSnap dimension fuel r2 (ndset index vv values)
    else .ok (values, r)

/-- The VMAP chunk decoder: only map type `'TXUV'` is stored (under
`currentLayer.uvMaps[name]`); all other map types are consumed and
discarded without touching the current layer. -/
def decodeVMAP (fuel chunkSize : Nat) (sizeSnap : Int) (r : Rd) (cl : Option LXOLayer) :
    Except PyErr (Rd × Option LXOLayer) := do
  let (mapType, r1) ← readID4 r
  let (dimension, r2) ← readU2 r1
  let (name, r3) ← readS0 r2
  let (values, r4) ← vmapLoop chunkSize sizeSnap dimension fuel r3 []
  if mapType = "TXUV" then do
    let cl1 ← curLayerMod (fun l => { l with uvMaps := dset name values l.uvMaps }) cl
    .ok (r4, cl1)
  else .ok (r4, cl)

/-- The VMAD entry loop: `values[polyIndex][vertIndex] = vv`, creating the
inner dict when the polygon key is new. -/
def vmadLoop (chunkSize : Nat) (sizeSnap : Int) (dimension : Nat) :
    Nat → Rd → List (Nat × List (Nat × List Nat)) →
    Except PyErr (List (Nat × List (Nat × List Nat)) × Rd)
  | 0, r, values =>
    if sizeSnap - r.modSize < (chunkSize : Int) then .error .outOfFuel else .ok (values, r)
  | fuel + 1, r, values =>
    if sizeSnap - r.modSize < (chunkSize : Int) then do
      let (vertIndex, r1) ← readVX r
      let (polyIndex, r2) ← readVX r1
      let (vv, r3) ← floatTimes dimension r2
      let values1 :=
        match ndget polyIndex values with
        | some inner => ndset polyIndex (ndset vertIndex vv inner) values
        | none => ndset polyIndex [(vertIndex, vv)] values
      vmadLoop chunkSize sizeSnap dimension fuel r3 values1
    else .ok (values, r)

/-- The VMAD chunk decoder (discontinuous maps; only `'TXUV'` is stored). -/
def decodeVMAD (fuel chunkSize : Nat) (sizeSnap : Int) (r : Rd) (cl : Option LXOLayer) :
    Except PyErr (Rd × Option LXOLayer) := do
  let (mapType, r1) ← readID4 r
  let (dimension, r2) ← readU2 r1
  let (name, r3) ← readS0 r2
  let (values, r4) ← vmadLoop chunkSize sizeSnap dimension fuel r3 []
  if mapType = "TXUV" then do
    let cl1 ← curLayerMod (fun l => { l with uvMapsDisco := dset name values l.uvMapsDisco }) cl
    .ok (r4, cl1)
  else .ok (r4, cl)

/-- The PTAG pair loop: (VX polygon index, u16 tag-table index). -/
def ptagLoop (chunkSize : Nat) (sizeSnap : Int) :
    Nat → Rd → List (Nat × Nat) → Except PyErr (List (Nat × Nat) × Rd)
  | 0, r, acc =>
    if sizeSnap - r.modSize < (chunkSize : Int) then .error .outOfFuel else .ok (acc, r)
  | fuel + 1, r, acc =>
    if sizeSnap - r.modSize < (chunkSize : Int) then do
      let (polsIndex, r1) ← readVX r
      let (tagsIndex, r2) ← readU2 r1
      ptagLoop chunkSize sizeSnap fuel r2 (acc ++ [(polsIndex, tagsIndex)])
    else .ok (acc, r)

/-- The PTAG chunk decoder: pairs are stored verbatim under
`currentLayer.ptags[tagType]`, with no resolution against the tag table. -/
def decodePTAG (fuel chunkSize : Nat) (sizeSnap : Int) (r : Rd) (cl : Option LXOLayer) :
    Except PyErr (Rd × Option LXOLayer) := do
  let (tagType, r1) ← readID4 r
  let (ptags, r2) ← ptagLoop chunkSize sizeSnap fuel r1 []
  let cl1 ← curLayerMod (fun l => { l with ptags := dset tagType ptags l.ptags }) cl
  .ok (r2, cl1)

/-- The LAYR chunk decoder: the fixed header, a fill-the-rest blob, then a
new layer built from (name, refineSubD, CCpreviewlvl, itemReference). -/
def decodeLAYR (chunkSize : Nat) (sizeSnap : Int) (r : Rd) :
    Except PyErr (LXOLayer × Rd) := do
  let (indexLegacy, r) ← readU2 r
  let (flags, r) ← readU2 r
  let (rotPivot, r) ← readVEC12 r
  let (name, r) ← readS0 r
  let (parentLegacy, r) ← readI2 r
  let (refineSubD, r) ← readF4 r
  let (refineCrvs, r) ← readF4 r
  let (sclPivot, r) ← readVEC12 r
  let (u0, r) ← readU4 r
  let (u1, r) ← readU4 r
  let (u2, r) ← readU4 r
  let (u3, r) ← readU4 r
  let (u4, r) ← readU4 r
  let (u5, r) ← readU4 r
  let (itemReference, r) ← readU4 r
  let (refineSplPtch, r) ← readU2 r
  let (w0, r) ← readU2 r
  let (w1, r) ← readU2 r
  let (w2, r) ← readU2 r
  let (w3, r) ← readU2 r
  let (CCrenderlvl, r) ← readU2 r
  let (CCpreviewlvl, r) ← readU2 r
  let (subDrenderlvl, r) ← readU2 r
  let blobsize : Int := (chunkSize : Int) - (sizeSnap - r.modSize)
  let (blob, r) ← readblob blobsize r
  .ok (mkLayer name refineSubD CCpreviewlvl itemReference, r)

/-- The ENVL chunk decoder: index, type, and an opaque blob. -/
def decodeENVL (chunkSize : Nat) (sizeSnap : Int) (r : Rd) : Except PyErr Rd := do
  let (index, r) ← readVX r
  let (ty, r) ← readU4 r
  let blobsize : Int := (chunkSize : Int) - (sizeSnap - r.modSize)
  let (subchunks, r) ← readblob blobsize r
  .ok r

/-- Read `vectorcount` (name, value) pairs for a CHNV subchunk. -/
def chnvTimes (datatype : Nat) : Nat → Rd → Except PyErr (List (String × PyVal) × Rd)
  | 0, r => .ok ([], r)
  | n + 1, r => do
    let (cname, r1) ← readS0 r
    let (value, r2) ← readValue datatype r1
    let (rest, r3) ← chnvTimes datatype n r2
    .ok ((cname, value) :: rest, r3)

/-- Per-tag dispatch for one subchunk inside an ITEM body.  The
`elif False and subchunkID == 'GRAD'/'CLNK'/'UCHN'` branches of the source
are dead code, so those tags fall through to the final opaque-blob branch.
In the CHNC branch the source initialises `data = ""` (a `str`) and then
runs `data += self.readU1()` (an `int`): for any non-zero length the first
loop pass consumes one byte via `readU1` and then raises `TypeError`; only
a zero length reaches the `item.CHNC.append(data)` line (appending the
empty string, with no pad byte since 0 is even). -/
def itemSubDispatch (chNames : Option (List String)) (subchunkID : String)
    (subchunkSize : Nat) (subsizeSnap : Int) (r : Rd) (item : LXOItem) :
    Except PyErr (Rd × LXOItem) :=
  if subchunkID = "PAKG" then do
    let (packageName, r) ← readS0 r
    let (reserved, r) ← readU4 r
    .ok (r, { item with packages := item.packages ++ [packageName] })
  else if subchunkID = "XREF" then do
    let (indexSubScene, r) ← readU4 r
    let (filename, r) ← readS0 r
    let (itemId, r) ← readS0 r
    .ok (r, item)
  else if subchunkID = "LAYR" then do
    let (index, r) ← readU4 r
    let (flags, r) ← readU4 r
    let (rgbs, r) ← readU14 r
    .ok (r, { item with LAYR := some (index, flags, rgbs) })
  else if subchunkID = "LINK" then do
    let (graphname, r) ← readS0 r
    let (itemIndex, r) ← readI4 r
    let (linkIndex, r) ← readI4 r
    .ok (r, { item with graphLinks := dset graphname (itemIndex, linkIndex) item.graphLinks })
  else if subchunkID = "CHNL" then do
    let (name, r) ← readS0 r
    let (datatype, r) ← readU2 r
    let (value, r) ← readValue datatype r
    .ok (r, { item with CHNL := item.CHNL ++ [(name, datatype, value)] })
  else if subchunkID = "CHNS" then do
    let (name, r) ← readS0 r
    let (value, r) ← readS0 r
    .ok (r, { item with channel := dset name (.str value) item.channel })
  else if subchunkID = "CHAN" then do
    let (index, r) ← readVX r
    let (datatype, r) ← readU2 r
    let (value, r) ← readValue datatype r
    let name ← lookupChannelName chNames index
    .ok (r, { item with channel := dset name value item.channel })
  else if subchunkID = "CHNV" then do
    let (name, r) ← readS0 r
    let (datatype, r) ← readU2 r
    let (vectorcount, r) ← readU2 r
    let (vec, r) ← chnvTimes datatype vectorcount r
    .ok (r, { item with CHNV := dset name vec item.CHNV })
  else if subchunkID = "ITAG" then do
    let (ty, r) ← readID4 r
    let (value, r) ← readS0 r
    .ok (r, { item with itemTags := item.itemTags ++ [(ty, value)] })
  else if subchunkID = "VNAM" then do
    let (name, r) ← readS0 r
    .ok (r, { item with vname := some name })
  else if subchunkID = "UNIQ" then do
    let (identifier, r) ← readS0 r
    .ok (r, item)
  else if subchunkID = "UIDX" then do
    let (index, r) ← readU4 r
    .ok (r, item)
  else if subchunkID = "CHNC" then do
    let (size, r) ← readU2 r
    if size = 0 then
      .ok (r, { item with CHNC := item.CHNC ++ [""] })
    else do
      let (b, r1) ← readU1 r
      .error .typeError
  else if subchunkID = "BCHN" then do
    let (operationType, r) ← readS0 r
    let (dat, r) ← readU4 r
    .ok (r, item)
  else do
    let blobsize : Int := (subchunkSize : Int) - (subsizeSnap - r.modSize)
    let (blob, r) ← readblob blobsize r
    .ok (r, item)

/-- One pass of the ITEM subchunk loop: read the subchunk header, consult
the selective filter (nested key = `'ITEM' + subchunkID`), then skip or
dispatch. -/
def itemSubStep (tags : List String) (chNames : Option (List String))
    (r : Rd) (item : LXOItem) : Except PyErr (Rd × LXOItem) := do
  let (subchunkID, r1) ← readID4 r
  let (subchunkSize, r2) ← readU2 r1
  let subsizeSnap := r2.modSize
  if tags ≠ [] ∧ "ITEM" ++ subchunkID ∉ tags then
    .ok (skipRd subchunkSize r2, item)
  else
    itemSubDispatch chNames subchunkID subchunkSize subsizeSnap r2 item

/-- The ITEM subchunk loop, bounded by the enclosing chunk's declared size. -/
def itemSubLoop (tags : List String) (chNames : Option (List String))
    (chunkSize : Nat) (sizeSnap : Int) :
    Nat → Rd → LXOItem → Except PyErr (Rd × LXOItem)
  | 0, r, item =>
    if sizeSnap - r.modSize < (chunkSize : Int) then .error .outOfFuel else .ok (r, item)
  | fuel + 1, r, item =>
    if sizeSnap - r.modSize < (chunkSize : Int) then do
      let (r1, item1) ← itemSubStep tags chNames r item
      itemSubLoop tags chNames chunkSize sizeSnap fuel r1 item1
    else .ok (r, item)

/-- The ITEM chunk decoder: typename, name, reference id, then the nested
subchunk walker populating the freshly created item. -/
def decodeITEM (tags : List String) (chNames : Option (List String))
    (fuel chunkSize : Nat) (sizeSnap : Int) (r : Rd) :
    Except PyErr (Rd × LXOItem) := do
  let (typename, r) ← readS0 r
  let (name, r) ← readS0 r
  let (referenceID, r) ← readU4 r
  itemSubLoop tags chNames chunkSize sizeSnap fuel r (mkItem name referenceID typename)

/-- Apply an update to the current action item; `None` (no ITEM subchunk
seen yet inside this ACTN body) raises `AttributeError`. -/
def curALItemMod (f : ALItem → ALItem) : Option ALItem → Except PyErr (Option ALItem)
  | none => .error .attributeError
  | some it => .ok (some (f it))

/-- Flush the action item under construction into the layer's item list
(Python appends it at creation; the decoded contents are identical). -/
def flushALItem (items : List ALItem) : Option ALItem → List ALItem
  | none => items
  | some it => items ++ [it]

/-- Per-tag dispatch for one subchunk inside an ACTN body. -/
def actnSubDispatch (chNames : Option (List String)) (subchunkID : String)
    (subchunkSize : Nat) (subsizeSnap : Int) (r : Rd)
    (items : List ALItem) (cur : Option ALItem) :
    Except PyErr (Rd × List ALItem × Option ALItem) :=
  if subchunkID = "ITEM" then do
    let (itemReferenceID, r) ← readU4 r
    .ok (r, flushALItem items cur, some (mkALItem itemReferenceID))
  else if subchunkID = "CHAN" then do
    let (index, r) ← readVX r
    let (datatype, r) ← readU2 r
    let (indexENVL, r) ← readVX r
    let (value, r) ← readValue datatype r
    let name ← lookupChannelName chNames index
    let cur1 ← curALItemMod
      (fun it => { it with CHAN := it.CHAN ++ [(name, datatype, indexENVL, value)] }) cur
    .ok (r, items, cur1)
  else if subchunkID = "GRAD" then do
    let blobsize : Int := (subchunkSize : Int) - (subsizeSnap - r.modSize)
    let (blob, r) ← readblob blobsize r
    let cur1 ← curALItemMod (fun it => { it with GRAD := it.GRAD ++ [blob] }) cur
    .ok (r, items, cur1)
  else if subchunkID = "CHNS" then do
    let (name, r) ← readS0 r
    let (index, r) ← readVX r
    let (value, r) ← readS0 r
    let chname ← lookupChannelName chNames index
    let cur1 ← curALItemMod
      (fun it => { it with stringChannels := it.stringChannels ++ [(name, chname, value)] }) cur
    .ok (r, items, cur1)
  else do
    let blobsize : Int := (subchunkSize : Int) - (subsizeSnap - r.modSize)
    let (blob, r) ← readblob blobsize r
    .ok (r, items, cur)

/-- One pass of the ACTN subchunk loop.  The source's filter test is
`if (self.tagsToRead and chunkID + subchunkID not in self.tagsToRead):`,
but `chunkID` is not a name in scope inside `__readACTN` (it is a local of
`__readChunks`): with a non-empty filter set Python evaluates the unbound
name and raises `NameError`; with an empty set the `and` short-circuits
and dispatch proceeds. -/
def actnSubStep (tags : List String) (chNames : Option (List String))
    (r : Rd) (items : List ALItem) (cur : Option ALItem) :
    Except PyErr (Rd × List ALItem × Option ALItem) := do
  let (subchunkID, r1) ← readID4 r
  let (subchunkSize, r2) ← readU2 r1
  let subsizeSnap := r2.modSize
  if tags ≠ [] then
    .error .nameError
  else
    actnSubDispatch chNames subchunkID subchunkSize subsizeSnap r2 items cur

/-- The ACTN subchunk loop. -/
def actnSubLoop (tags : List String) (chNames : Option (List String))
    (chunkSize : Nat) (sizeSnap : Int) :
    Nat → Rd → List ALItem → Option ALItem →
    Except PyErr (Rd × List ALItem × Option ALItem)
  | 0, r, items, cur =>
    if sizeSnap - r.modSize < (chunkSize : Int) then .error .outOfFuel
    else .ok (r, items, cur)
  | fuel + 1, r, items, cur =>
    if sizeSnap - r.modSize < (chunkSize : Int) then do
      let (r1, items1, cur1) ← actnSubStep tags chNames r items cur
      actnSubLoop tags chNames chunkSize sizeSnap fuel r1 items1 cur1
    else .ok (r, items, cur)

/-- `LXOReader.__readACTN`: action-layer header, then the nested walker
building per-item override records. -/
def readACTN (tags : List String) (chNames : Option (List String))
    (fuel chunkSize : Nat) (sizeSnap : Int) (r : Rd) :
    Except PyErr (Rd × ActionLayer) := do
  let (actionlayername, r) ← readS0 r
  let (actionlayertype, r) ← readS0 r
  let (actionlayerindex, r) ← readU4 r
  let (r, items, cur) ← actnSubLoop tags chNames chunkSize sizeSnap fuel r [] none
  .ok (r, { name := actionlayername
            type := actionlayertype
            index := actionlayerindex
            items := flushALItem items cur })

/-- The walker's whole-run state: stream cursor, result aggregate, and the
implicit current-layer context. -/
structure St where
  rd : Rd
  lxo : LXOFile
  currentLayer : Option LXOLayer
deriving DecidableEq, Repr

/-- Append the layer under construction to the file's layer list (Python
appends at creation time inside `addLayer`; the decoded contents agree
because nothing reads `lxoFile.layers` during decode). -/
def flushLayer (lxo : LXOFile) : Option LXOLayer → LXOFile
  | none => lxo
  | some l => { lxo with layers := lxo.layers ++ [l] }

/-- Per-tag dispatch of the top-level chunk walker (`__readChunks` body
after the filter test).  Unknown tags take the final skip branch. -/
def dispatchChunk (tags : List String) (fuel : Nat) (chunkID : String)
    (chunkSize : Nat) (sizeSnap : Int) (s : St) : Except PyErr St :=
  if chunkID = "DESC" then do
    let (presetType, r) ← readS0 s.rd
    let (presetDescription, r) ← readS0 r
    .ok { s with rd := r }
  else if chunkID = "VRSN" then do
    let (major, r) ← readU4 s.rd
    let (minor, r) ← readU4 r
    let (app, r) ← readS0 r
    .ok { s with
          rd := r
          lxo := { s.lxo with version := some major, appversion := some app } }
  else if chunkID = "APPV" then do
    let (major, r) ← readU4 s.rd
    let (minor, r) ← readU4 r
    let (unknown, r) ← readU4 r
    let (build, r) ← readU4 r
    let (level, r) ← readS0 r
    .ok { s with rd := r }
  else if chunkID = "ENCO" then do
    let (encoding, r) ← readU4 s.rd
    .ok { s with rd := r, lxo := { s.lxo with encoding := some encoding } }
  else if chunkID = "TAGS" then do
    let (tagsList, r) ← tagsLoop chunkSize sizeSnap fuel s.rd []
    .ok { s with rd := r, lxo := { s.lxo with tagnames := some tagsList } }
  else if chunkID = "CHNM" then do
    let (count, r) ← readU4 s.rd
    let (names, r) ← strsTimes count r
    .ok { s with rd := r, lxo := { s.lxo with channelNames := some names } }
  else if chunkID = "LAYR" then do
    let (newLayer, r) ← decodeLAYR chunkSize sizeSnap s.rd
    .ok { s with
          rd := r
          lxo := flushLayer s.lxo s.currentLayer
          currentLayer := some newLayer }
  else if chunkID = "POLS" then do
    let (r, cl) ← decodePOLS fuel chunkSize sizeSnap s.rd s.currentLayer
    .ok { s with rd := r, currentLayer := cl }
  else if chunkID = "PNTS" then do
    let (r, cl) ← decodePNTS fuel chunkSize sizeSnap s.rd s.currentLayer
    .ok { s with rd := r, currentLayer := cl }
  else if chunkID = "VMAP" then do
    let (r, cl) ← decodeVMAP fuel chunkSize sizeSnap s.rd s.currentLayer
    .ok { s with rd := r, currentLayer := cl }
  else if chunkID = "VMAD" then do
    let (r, cl) ← decodeVMAD fuel chunkSize sizeSnap s.rd s.currentLayer
    .ok { s with rd := r, currentLayer := cl }
  else if chunkID = "PTAG" then do
    let (r, cl) ← decodePTAG fuel chunkSize sizeSnap s.rd s.currentLayer
    .ok { s with rd := r, currentLayer := cl }
  else if chunkID = "ENVL" then do
    let r ← decodeENVL chunkSize sizeSnap s.rd
    .ok { s with rd := r }
  else if chunkID = "BBOX" then do
    let (minXYZ, r) ← readVEC12 s.rd
    let (maxXYZ, r) ← readVEC12 r
    .ok { s with rd := r }
  else if chunkID = "ITEM" then do
    let (r, item) ← decodeITEM tags s.lxo.channelNames fuel chunkSize sizeSnap s.rd
    .ok { s with rd := r, lxo := { s.lxo with items := s.lxo.items ++ [item] } }
  else if chunkID = "ACTN" then do
    let (r, al) ← readACTN tags s.lxo.channelNames fuel chunkSize sizeSnap s.rd
    .ok { s with
          rd := r
          lxo := { s.lxo with actionLayers := s.lxo.actionLayers ++ [al] } }
  else
    .ok { s with rd := skipRd chunkSize s.rd }

/-- One pass of the top-level chunk walker: read the 4-byte tag and 4-byte
size, snapshot the budget, consult the selective filter (`self.tagsToRead`),
then skip (budget decrement + forward seek, no other effect) or dispatch. -/
def readChunksStep (tags : List String) (fuel : Nat) (s : St) : Except PyErr St := do
  let (chunkID, r1) ← readID4 s.rd
  let (chunkSize, r2) ← readU4 r1
  let sizeSnap := r2.modSize
  if tags ≠ [] ∧ chunkID ∉ tags then
    .ok { s with rd := skipRd chunkSize r2 }
  else
    dispatchChunk tags fuel chunkID chunkSize sizeSnap { s with rd := r2 }

/-- `LXOReader.__readChunks`: iterate `readChunksStep` while the budget is
positive. -/
def readChunksLoop (tags : List String) : Nat → St → Except PyErr St
  | 0, s =>
    if s.rd.modSize > 0 then .error .outOfFuel
    else .ok { s with lxo := flushLayer s.lxo s.currentLayer, currentLayer := none }
  | fuel + 1, s =>
    if s.rd.modSize > 0 then do
      let s1 ← readChunksStep tags (fuel + 1) s
      readChunksLoop tags fuel s1
    else .ok { s with lxo := flushLayer s.lxo s.currentLayer, currentLayer := none }

/-- Modelled from the spec, for comparison in the materials-derivation
claim: the polygon indices of the MATR ptag list whose tag-table index
resolves to `name`, in list order. -/
def matrPolys (tn : List String) (matr : List (Nat × Nat)) (name : String) : List Nat :=
  matr.filterMap (fun pt => if tn.get? pt.2 = some name then some pt.1 else none)

/-- The module-level `sENCODINGS` table of 8 text-encoding labels.  The
decoder only subscripts it inside `if DEBUG:` output; the non-debug decode
path stores the raw integer without any range check. -/
def sENCODINGS : List String :=
  ["System Default", "ANSI", "UTF-8", "Shift-JIS (Japanese)",
   "EUC-JP (Japanese)", "EUC-KR (Korea KS C 5601)",
   "GB2312 (Simplified Chinese)", "BIG5 (Traditional Chinese)"]

/-- The decode-time invariant behind the lazy materials view: every layer
already in the file, and the layer under construction, have an empty
`materials` mapping (nothing during decode ever calls
`generateMaterials`). -/
def matInv (lxo : LXOFile) (cl : Option LXOLayer) : Prop :=
  (∀ l ∈ lxo.layers, l.materials = []) ∧ ∀ l, cl = some l → l.materials = []

theorem pyBindOk {α β : Type} (a : α) (f : α → Except PyErr β) :
    (Except.ok a >>= f) = f a := rfl

theorem pyBindErr {α β : Type} (e : PyErr) (f : α → Except PyErr β) :
    ((Except.error e : Except PyErr α) >>= f) = Except.error e := rfl

theorem exceptBindEqOk {α β : Type} (x : Except PyErr α) (f : α → Except PyErr β) (b : β) :
    (x >>= f = .ok b) ↔ ∃ a, x = .ok a ∧ f a = .ok b := by
  cases x <;> simp [pyBindOk, pyBindErr]

/-- `readI4` fails only by truncation. -/
theorem readI4Err (r : Rd) (e : PyErr) (h : readI4 r = .error e) : e = .truncated := by
  unfold readI4 readBytes at h
  split at h <;> simp_all [pyBindOk, pyBindErr]

/-- `readF4` fails only by truncation. -/
theorem readF4Err (r : Rd) (e : PyErr) (h : readF4 r = .error e) : e = .truncated := by
  unfold readF4 readBytes at h
  split at h <;> simp_all [pyBindOk, pyBindErr]

/-- `readS0Aux` fails only by truncation. -/
theorem readS0AuxErr (fuel : Nat) : ∀ (r : Rd) (acc : List Nat) (e : PyErr),
    readS0Aux fuel r acc = .error e → e = .truncated := by
  induction fuel with
  | zero =>
    intro r acc e h
    rw [readS0Aux] at h
    cases h
    rfl
  | succ fuel ih =>
    intro r acc e h
    rw [readS0Aux] at h
    by_cases hlt : r.pos < r.data.length
    · simp only [dif_pos hlt] at h
      split at h
      · cases h
      · exact ih _ _ _ h
    · simp only [dif_neg hlt] at h
      cases h
      rfl

/-- `maskDatatype` in divide-and-remainder form (bit 5 as `d / 32 % 2`). -/
theorem maskDatatypeDiv (d : Nat) :
    maskDatatype d = if d / 32 % 2 = 1 then d - 32 else d := by
  simp [maskDatatype, Nat.testBit_to_div_mod]

/-- `maskDatatype` is idempotent: bit 5 is already clear after masking. -/
theorem maskDatatypeIdem (d : Nat) :
    maskDatatype (maskDatatype d) = maskDatatype d := by
  simp only [maskDatatypeDiv]
  split
  · split <;> omega
  · rfl

/-- C1: the variable-index read returns the 16-bit big-endian value of the
first 2 bytes and consumes exactly 2 bytes (budget decremented by 2) when
that value is below `0xFF00`; when the value is `0xFF00` or above the
source's wide branch does not return the masked 32-bit value — it raises
`TypeError` (`'\x00' + val[1:]` concatenates `str` with `bytes`), so the
4-byte case of the claim never happens. -/
theorem c1_readVX (r : Rd) (b0 b1 : Nat) (tail : List Nat)
    (hdrop : r.data.drop r.pos = b0 :: b1 :: tail) :
    readVX r =
      if 256 * b0 + b1 < 0xFF00 then
        .ok (256 * b0 + b1, ⟨r.data, r.pos + 2, r.modSize - 2⟩)
      else
        .error .typeError := by
  have hlen : r.pos + 2 ≤ r.data.length := by
    have h := congrArg List.length hdrop
    simp only [List.length_drop, List.length_cons] at h
    omega
  unfold readVX readBytes
  rw [if_pos hlen, pyBindOk]
  simp only [hdrop, List.take_succ_cons, List.take_zero, beVal, List.foldl]
  have hbe : (0 * 256 + b0) * 256 + b1 = 256 * b0 + b1 := by ring
  rw [hbe]

/-- Witness for `c1_readVX`: the narrow branch on bytes `[0x01, 0x02]` and
the wide branch on bytes `[0xFF, 0x00, 0x00, 0x01]`. -/
theorem c1_readVX_witness :
    readVX ⟨[0x01, 0x02], 0, 10⟩ = .ok (258, ⟨[0x01, 0x02], 2, 8⟩) ∧
    readVX ⟨[0xFF, 0x00, 0x00, 0x01], 0, 10⟩ = .error .typeError := by
  constructor
  · have h := c1_readVX ⟨[0x01, 0x02], 0, 10⟩ 0x01 0x02 [] rfl
    simpa using h
  · have h := c1_readVX ⟨[0xFF, 0x00, 0x00, 0x01], 0, 10⟩ 0xFF 0x00 [0x00, 0x01] rfl
    simpa using h

/-- C3: `readValue` depends only on the masked datatype (`& ~0x20`), it
raises the unknown-datatype error exactly when the masked value is outside
`{1, 2, 3, 17, 18, 19}`, masked value 1 decodes a signed 4-byte big-endian
integer, 2 a 4-byte big-endian float, 3 a null-terminated string, and
datatype 17 decodes identically to datatype 1 on the same bytes. -/
theorem c3_readValue_dispatch :
    (∀ d r, readValue d r = readValue (maskDatatype d) r)
    ∧ (∀ d r, (readValue d r = .error .unknownDatatype ↔
        maskDatatype d ∉ ([1, 2, 3, 17, 18, 19] : List Nat)))
    ∧ (∀ r, readValue 1 r = (readInt r).bind fun p => .ok (PyVal.int p.1, p.2))
    ∧ (∀ r, readValue 2 r = (readFloat r).bind fun p => .ok (PyVal.float p.1, p.2))
    ∧ (∀ r, readValue 3 r = (readS0 r).bind fun p => .ok (PyVal.str p.1, p.2))
    ∧ (∀ r, readValue 17 r = readValue 1 r) := by
  have hmask1 : maskDatatype 1 = 1 := by decide
  have hmask2 : maskDatatype 2 = 2 := by decide
  have hmask3 : maskDatatype 3 = 3 := by decide
  have hmask17 : maskDatatype 17 = 17 := by decide
  refine ⟨?_, ?_, ?_, ?_, ?_, ?_⟩
  · intro d r
    unfold readValue
    rw [maskDatatypeIdem]
  · intro d r
    unfold readValue
    by_cases h1 : maskDatatype d = 1 ∨ maskDatatype d = 17
    · rw [if_pos h1]
      constructor
      · intro h
        cases hread : readInt r with
        | ok p =>
          rw [hread] at h
          cases p
          simp [pyBindOk] at h
        | error e =>
          rw [hread] at h
          rw [pyBindErr] at h
          cases h
          have := readI4Err r _ hread
          simp_all
      · intro h
        exfalso
        apply h
        rcases h1 with h1 | h1 <;> simp [h1]
    · rw [if_neg h1]
      by_cases h2 : maskDatatype d = 2 ∨ maskDatatype d = 18
      · rw [if_pos h2]
        constructor
        · intro h
          cases hread : readFloat r with
          | ok p =>
            rw [hread] at h
            cases p
            simp [pyBindOk] at h
          | error e =>
            rw [hread] at h
            rw [pyBindErr] at h
            cases h
            have := readF4Err r _ hread
            simp_all [readFloat]
        · intro h
          exfalso
          apply h
          rcases h2 with h2 | h2 <;> simp [h2]
      · rw [if_neg h2]
        by_cases h3 : maskDatatype d = 3 ∨ maskDatatype d = 19
        · rw [if_pos h3]
          constructor
          · intro h
            cases hread : readS0 r with
            | ok p =>
              rw [hread] at h
              cases p
              simp [pyBindOk] at h
            | error e =>
              rw [hread] at h
              rw [pyBindErr] at h
              cases h
              have := readS0AuxErr _ _ _ _ hread
              simp_all
          · intro h
            exfalso
            apply h
            rcases h3 with h3 | h3 <;> simp [h3]
        · simp only [if_neg h3]
          constructor
          · intro _
            push_neg at h1 h2 h3
            simp only [List.mem_cons, List.not_mem_nil, or_false]
            push_neg
            exact ⟨h1.1, h2.1, h3.1, h1.2, h2.2, h3.2⟩
          · intro _
            trivial
  · intro r
    unfold readValue
    rw [hmask1]
    norm_num
    cases hread : readInt r with
    | ok p => cases p; rw [pyBindOk]; rfl
    | error e => rw [pyBindErr]; rfl
  · intro r
    unfold readValue
    rw [hmask2]
    norm_num
    cases hread : readFloat r with
    | ok p => cases p; rw [pyBindOk]; rfl
    | error e => rw [pyBindErr]; rfl
  · intro r
    unfold readValue
    rw [hmask3]
    norm_num
    cases hread : readS0 r with
    | ok p => cases p; rw [pyBindOk]; rfl
    | error e => rw [pyBindErr]; rfl
  · intro r
    unfold readValue
    rw [hmask1, hmask17]
    norm_num

/-- `readBytes` on a stream whose remainder starts with a known prefix. -/
theorem readBytesOfDrop (n : Nat) (r : Rd) (pre tail : List Nat)
    (hn : 0 < n) (hpre : pre.length = n) (hdrop : r.data.drop r.pos = pre ++ tail) :
    readBytes n r = .ok (pre, { r with pos := r.pos + n }) := by
  have hlen : r.pos + n ≤ r.data.length := by
    have h := congrArg List.length hdrop
    simp only [List.length_drop, List.length_append, hpre] at h
    omega
  unfold readBytes
  rw [if_pos hlen, hdrop, ← hpre, List.take_left]

/-- `readID4` on known bytes: the signed unpack makes `chr(val >> 24)` fail
for a leading byte of `0x80` or above, and succeed with the plain
byte-to-character tag otherwise. -/
theorem readID4Chars (r r1 : Rd) (a b c d : Nat)
    (ha : a < 256) (hb : b < 256) (hc : c < 256) (hd : d < 256)
    (hread : readBytes 4 { r with modSize := r.modSize - 4 } = .ok ([a, b, c, d], r1)) :
    readID4 r =
      if a < 128 then
        .ok (⟨[Char.ofNat a, Char.ofNat b, Char.ofNat c, Char.ofNat d]⟩, r1)
      else .error .valueError := by
  unfold readID4
  simp only [hread, pyBindOk]
  have hbe : beVal [a, b, c, d] = ((a * 256 + b) * 256 + c) * 256 + d := by
    simp [beVal, List.foldl]
  simp only [hbe]
  by_cases ha128 : a < 128
  · rw [if_pos ha128]
    have hT : toI32 (((a * 256 + b) * 256 + c) * 256 + d) =
        ((((a * 256 + b) * 256 + c) * 256 + d : Nat) : Int) := by
      unfold toI32
      rw [if_pos (by push_cast; omega)]
    simp only [hT]
    have h0 : ((((a * 256 + b) * 256 + c) * 256 + d : Nat) : Int) >>> (24 : Nat) = (a : Int) := by
      rw [Int.shiftRight_eq_div_pow]; push_cast; omega
    have h1 : (((((a * 256 + b) * 256 + c) * 256 + d : Nat) : Int) >>> (16 : Nat)) % 256 = (b : Int) := by
      rw [Int.shiftRight_eq_div_pow]; push_cast; omega
    have h2 : (((((a * 256 + b) * 256 + c) * 256 + d : Nat) : Int) >>> (8 : Nat)) % 256 = (c : Int) := by
      rw [Int.shiftRight_eq_div_pow]; push_cast; omega
    have h3 : ((((a * 256 + b) * 256 + c) * 256 + d : Nat) : Int) % 256 = (d : Int) := by
      omega
    rw [h0, h1, h2, h3]
    have hchr : ∀ x : Nat, x < 256 → pyChr (x : Int) = .ok (Char.ofNat x) := by
      intro x hx
      unfold pyChr
      rw [if_pos (show (0:Int) ≤ (x:Int) ∧ (x:Int) < 0x110000 by omega)]
      simp
    rw [hchr a ha, hchr b hb, hchr c hc, hchr d hd]
    simp [pyBindOk]
  · rw [if_neg ha128]
    have hT : toI32 (((a * 256 + b) * 256 + c) * 256 + d) =
        ((((a * 256 + b) * 256 + c) * 256 + d : Nat) : Int) - 2 ^ 32 := by
      unfold toI32
      rw [if_neg (by push_cast; omega)]
    simp only [hT]
    have h0 : (((((a * 256 + b) * 256 + c) * 256 + d : Nat) : Int) - 2 ^ 32) >>> (24 : Nat) =
        (a : Int) - 256 := by
      rw [Int.shiftRight_eq_div_pow]; push_cast; omega
    rw [h0]
    have hchr : pyChr ((a : Int) - 256) = .error .valueError := by
      unfold pyChr
      rw [if_neg (by omega)]
    rw [hchr, pyBindErr]

/-- C9: the 4-byte tag read is partial at its interface — on a stream whose
next four bytes are `a b c d` (each below 256), it returns the 4-character
tag and consumes exactly 4 bytes (budget decremented by 4) when `a < 0x80`,
and raises an exception (Python `ValueError` from `chr` of the negative
`val >> 24`) when `a ≥ 0x80`, because the bytes are unpacked as a signed
32-bit integer. -/
theorem c9_readID4_partial (r : Rd) (a b c d : Nat) (tail : List Nat)
    (ha : a < 256) (hb : b < 256) (hc : c < 256) (hd : d < 256)
    (hdrop : r.data.drop r.pos = a :: b :: c :: d :: tail) :
    readID4 r =
      if a < 128 then
        .ok (⟨[Char.ofNat a, Char.ofNat b, Char.ofNat c, Char.ofNat d]⟩,
             ⟨r.data, r.pos + 4, r.modSize - 4⟩)
      else .error .valueError := by
  have hread : readBytes 4 { r with modSize := r.modSize - 4 } =
      .ok ([a, b, c, d], ⟨r.data, r.pos + 4, r.modSize - 4⟩) :=
    readBytesOfDrop 4 { r with modSize := r.modSize - 4 } [a, b, c, d] tail
      (by omega) rfl hdrop
  exact readID4Chars r _ a b c d ha hb hc hd hread

/-- Witness for `c9_readID4_partial`: the bytes of `'FORM'` decode to the
tag `"FORM"`, and a leading byte `0x80` raises. -/
theorem c9_readID4_partial_witness :
    readID4 ⟨[0x46, 0x4F, 0x52, 0x4D], 0, 10⟩ =
      .ok ("FORM", ⟨[0x46, 0x4F, 0x52, 0x4D], 4, 6⟩) ∧
    readID4 ⟨[0x80, 0x00, 0x00, 0x01], 0, 10⟩ = .error .valueError := by
  constructor
  · have h := c9_readID4_partial ⟨[0x46, 0x4F, 0x52, 0x4D], 0, 10⟩
      0x46 0x4F 0x52 0x4D [] (by omega) (by omega) (by omega) (by omega) rfl
    rw [if_pos (by omega)] at h
    exact h
  · have h := c9_readID4_partial ⟨[0x80, 0x00, 0x00, 0x01], 0, 10⟩
      0x80 0x00 0x00 0x01 [] (by omega) (by omega) (by omega) (by omega) rfl
    rw [if_neg (by omega)] at h
    exact h

/-- The loop of `readS0`, characterised: on success it has consumed `k`
bytes where `k` is the least positive count making the accumulated byte
count even with a zero byte last, and it returns the ignore-decoded,
zero-stripped accumulated bytes. -/
theorem readS0AuxSpec (fuel : Nat) :
    ∀ (data : List Nat) (pos : Nat) (ms : Int) (acc : List Nat) (s : String) (r' : Rd),
    readS0Aux fuel ⟨data, pos, ms⟩ acc = .ok (s, r') →
    ∃ k, 0 < k ∧ pos + k ≤ data.length ∧
      r' = ⟨data, pos + k, ms - (k : Int)⟩ ∧
      (acc.length + k) % 2 = 0 ∧
      (acc ++ (data.drop pos).take k).getLast? = some 0 ∧
      (∀ j, 0 < j → j < k → (acc.length + j) % 2 = 0 →
        (acc ++ (data.drop pos).take j).getLast? ≠ some 0) ∧
      s = utf8IgnStr (rstripZeros (acc ++ (data.drop pos).take k)) := by
  induction fuel with
  | zero =>
    intro data pos ms acc s r' h
    rw [readS0Aux] at h
    cases h
  | succ fuel ih =>
    intro data pos ms acc s r' h
    rw [readS0Aux] at h
    by_cases hlt : pos < data.length
    · simp only [dif_pos hlt] at h
      have hdrop := List.drop_eq_getElem_cons hlt
      have htake1 : (data.drop pos).take 1 = [data.get ⟨pos, hlt⟩] := by
        rw [hdrop]
        rfl
      by_cases hcond : (acc ++ [data.get ⟨pos, hlt⟩]).length % 2 = 0 ∧
          (acc ++ [data.get ⟨pos, hlt⟩]).getLast? = some 0
      · rw [if_pos hcond] at h
        rw [Except.ok.injEq, Prod.mk.injEq] at h
        obtain ⟨hs, hr'⟩ := h
        refine ⟨1, by omega, by omega, ?_, ?_, ?_, ?_, ?_⟩
        · rw [← hr']
          rw [Rd.mk.injEq]
          refine ⟨rfl, rfl, by push_cast; ring⟩
        · have := hcond.1
          simp only [List.length_append, List.length_cons, List.length_nil,
            Nat.zero_add] at this
          omega
        · rw [htake1]
          exact hcond.2
        · intro j hj0 hj1
          omega
        · rw [htake1]
          exact hs.symm
      · rw [if_neg hcond] at h
        obtain ⟨k', hk0, hlen, hr', heven, hlast, hmin, hs⟩ := ih _ _ _ _ _ _ h
        have htake : ∀ m : Nat, (data.drop pos).take (m + 1) =
            data.get ⟨pos, hlt⟩ :: (data.drop (pos + 1)).take m := by
          intro m
          rw [hdrop]
          rfl
        have hacc : ∀ m : Nat, acc ++ (data.drop pos).take (m + 1) =
            (acc ++ [data.get ⟨pos, hlt⟩]) ++ (data.drop (pos + 1)).take m := by
          intro m
          rw [htake]
          simp [List.append_assoc]
        simp only [List.length_append, List.length_cons, List.length_nil,
          Nat.zero_add] at heven hmin
        refine ⟨k' + 1, by omega, by omega, ?_, by omega, ?_, ?_, ?_⟩
        · rw [hr']
          rw [Rd.mk.injEq]
          refine ⟨rfl, by omega, by push_cast; ring⟩
        · rw [hacc]
          exact hlast
        · intro j hj0 hjk hjeven
          obtain ⟨m, rfl⟩ : ∃ m, j = m + 1 := ⟨j - 1, by omega⟩
          cases m with
          | zero =>
            rw [htake 0]
            intro hbad
            apply hcond
            refine ⟨?_, by simpa using hbad⟩
            simp only [List.length_append, List.length_cons, List.length_nil,
              Nat.zero_add]
            omega
          | succ m =>
            rw [hacc (m + 1)]
            exact hmin (m + 1) (by omega) (by omega) (by omega)
        · rw [hacc]
          exact hs
    · simp only [dif_neg hlt] at h
      cases h

/-- C4 (amended): `readS0` consumes bytes one at a time, stopping exactly
at the first even byte count whose last byte is zero; it strips all
trailing zero bytes and decodes the remainder as UTF-8 with the *ignore*
policy (undecodable bytes are dropped, the decode step never fails; the
claim's replacement policy is refuted by `c4_readS0_replace_cex`).  The
claim's concrete examples hold: `[0x41, 0x00]` yields `"A"` with 2 bytes
consumed and `[0x41, 0x42, 0x00, 0x00]` yields `"AB"` with 4 bytes
consumed. -/
theorem c4_readS0_even_zero_scan :
    (∀ r s r', readS0 r = .ok (s, r') →
      ∃ n, 0 < n ∧ r.pos + n ≤ r.data.length ∧
        r' = ⟨r.data, r.pos + n, r.modSize - (n : Int)⟩ ∧
        n % 2 = 0 ∧
        ((r.data.drop r.pos).take n).getLast? = some 0 ∧
        (∀ j, 0 < j → j < n → j % 2 = 0 →
          ((r.data.drop r.pos).take j).getLast? ≠ some 0) ∧
        s = utf8IgnStr (rstripZeros ((r.data.drop r.pos).take n)))
    ∧ readS0 ⟨[0x41, 0x00], 0, 2⟩ = .ok ("A", ⟨[0x41, 0x00], 2, 0⟩)
    ∧ readS0 ⟨[0x41, 0x42, 0x00, 0x00], 0, 4⟩ =
        .ok ("AB", ⟨[0x41, 0x42, 0x00, 0x00], 4, 0⟩) := by
  refine ⟨?_, by decide, by decide⟩
  intro r s r' h
  obtain ⟨k, hk0, hlen, hr', heven, hlast, hmin, hs⟩ :=
    readS0AuxSpec (r.data.length - r.pos + 1) r.data r.pos r.modSize [] s r' h
  refine ⟨k, hk0, hlen, hr', by simpa using heven, by simpa using hlast, ?_, by simpa using hs⟩
  intro j hj0 hjk hjeven
  have := hmin j hj0 hjk (by simpa using hjeven)
  simpa using this

/-- Witness for `c4_readS0_even_zero_scan`: instantiating the loop
characterisation on the concrete stream `[0x41, 0x00]`. -/
theorem c4_readS0_even_zero_scan_witness :
    ∃ n, 0 < n ∧ (0 : Nat) + n ≤ ([0x41, 0x00] : List Nat).length ∧
      (⟨[0x41, 0x00], 2, 0⟩ : Rd) = ⟨[0x41, 0x00], 0 + n, 2 - (n : Int)⟩ ∧
      n % 2 = 0 ∧
      ((([0x41, 0x00] : List Nat).drop 0).take n).getLast? = some 0 ∧
      (∀ j, 0 < j → j < n → j % 2 = 0 →
        ((([0x41, 0x00] : List Nat).drop 0).take j).getLast? ≠ some 0) ∧
      "A" = utf8IgnStr (rstripZeros ((([0x41, 0x00] : List Nat).drop 0).take n)) :=
  c4_readS0_even_zero_scan.1 ⟨[0x41, 0x00], 0, 2⟩ "A" ⟨[0x41, 0x00], 2, 0⟩ (by decide)

/-- C4 (counterexample): the source decodes with `errors="ignore"` — on the
stream `[0xC3, 0x00]` the string read returns the empty string, not the
U+FFFD replacement the claim's "replacement policy" would produce. -/
theorem c4_readS0_replace_cex :
    readS0 ⟨[0xC3, 0x00], 0, 2⟩ = .ok ("", ⟨[0xC3, 0x00], 2, 0⟩) ∧
    utf8RepStr (rstripZeros [0xC3, 0x00]) = ⟨[Char.ofNat 0xFFFD]⟩ ∧
    ("" : String) ≠ ⟨[Char.ofNat 0xFFFD]⟩ := by
  refine ⟨by decide, by decide, by decide⟩

/-- C2: selective-filter behaviour.  (i) At the top level, a chunk whose
tag is absent from a non-empty filter set is skipped: the declared size is
subtracted from the budget, the stream is seeked forward by exactly that
many bytes, and the file aggregate and current-layer context are returned
unchanged.  (ii) The same holds for ITEM subchunks under the key
`"ITEM" ++ subTag`, with the item under construction unchanged.  (iii/iv)
With an empty filter set, the top-level walker and the ITEM walker always
proceed to per-tag dispatch (every chunk is decoded).  (v) Inside an ACTN
body, however, any non-empty filter set makes the subchunk step raise
`NameError` (the source's filter test reads the out-of-scope name
`chunkID`), so the claimed ACTN skip never happens. -/
theorem c2_filter_skip :
    (∀ (tags : List String) (fuel : Nat) (s : St) (chunkID : String)
        (r1 : Rd) (chunkSize : Nat) (r2 : Rd),
      readID4 s.rd = .ok (chunkID, r1) →
      readU4 r1 = .ok (chunkSize, r2) →
      tags ≠ [] →
      chunkID ∉ tags →
      readChunksStep tags fuel s = .ok ⟨skipRd chunkSize r2, s.lxo, s.currentLayer⟩)
    ∧ (∀ (tags : List String) (chN : Option (List String)) (r : Rd)
        (item : LXOItem) (subID : String) (r1 : Rd) (subSize : Nat) (r2 : Rd),
      readID4 r = .ok (subID, r1) →
      readU2 r1 = .ok (subSize, r2) →
      tags ≠ [] →
      "ITEM" ++ subID ∉ tags →
      itemSubStep tags chN r item = .ok (skipRd subSize r2, item))
    ∧ (∀ (fuel : Nat) (s : St) (chunkID : String) (r1 : Rd) (chunkSize : Nat) (r2 : Rd),
      readID4 s.rd = .ok (chunkID, r1) →
      readU4 r1 = .ok (chunkSize, r2) →
      readChunksStep [] fuel s =
        dispatchChunk [] fuel chunkID chunkSize r2.modSize { s with rd := r2 })
    ∧ (∀ (chN : Option (List String)) (r : Rd) (item : LXOItem)
        (subID : String) (r1 : Rd) (subSize : Nat) (r2 : Rd),
      readID4 r = .ok (subID, r1) →
      readU2 r1 = .ok (subSize, r2) →
      itemSubStep [] chN r item = itemSubDispatch chN subID subSize r2.modSize r2 item)
    ∧ (∀ (tags : List String) (chN : Option (List String)) (r : Rd)
        (items : List ALItem) (cur : Option ALItem)
        (subID : String) (r1 : Rd) (subSize : Nat) (r2 : Rd),
      readID4 r = .ok (subID, r1) →
      readU2 r1 = .ok (subSize, r2) →
      tags ≠ [] →
      actnSubStep tags chN r items cur = .error .nameError) := by
  refine ⟨?_, ?_, ?_, ?_, ?_⟩
  · intro tags fuel s chunkID r1 chunkSize r2 h1 h2 htags hmem
    unfold readChunksStep
    simp only [h1, pyBindOk, h2]
    rw [if_pos ⟨htags, hmem⟩]
  · intro tags chN r item subID r1 subSize r2 h1 h2 htags hmem
    unfold itemSubStep
    simp only [h1, pyBindOk, h2]
    rw [if_pos ⟨htags, hmem⟩]
  · intro fuel s chunkID r1 chunkSize r2 h1 h2
    unfold readChunksStep
    simp only [h1, pyBindOk, h2]
    rw [if_neg (by simp)]
  · intro chN r item subID r1 subSize r2 h1 h2
    unfold itemSubStep
    simp only [h1, pyBindOk, h2]
    rw [if_neg (by simp)]
  · intro tags chN r items cur subID r1 subSize r2 h1 h2 htags
    unfold actnSubStep
    simp only [h1, pyBindOk, h2]
    rw [if_pos htags]

/-- Witness for `c2_filter_skip`: a TAGS chunk skipped under the filter
`{"VRSN"}`, an ITEM LAYR subchunk skipped under `{"ITEMVNAM"}`, an ENCO
chunk dispatched under the empty filter, a VNAM subchunk dispatched under
the empty filter, and the `NameError` of an ACTN subchunk step under the
filter `{"ACTN"}`. -/
theorem c2_filter_skip_witness :
    readChunksStep ["VRSN"] 1
        ⟨⟨[0x54, 0x41, 0x47, 0x53, 0, 0, 0, 2, 0x41, 0x00], 0, 10⟩, mkLXOFile, none⟩ =
      .ok ⟨skipRd 2 ⟨[0x54, 0x41, 0x47, 0x53, 0, 0, 0, 2, 0x41, 0x00], 8, 2⟩,
           mkLXOFile, none⟩ ∧
    itemSubStep ["ITEMVNAM"] none
        ⟨[0x4C, 0x41, 0x59, 0x52, 0, 12], 0, 6⟩ (mkItem "i" 0 "t") =
      .ok (skipRd 12 ⟨[0x4C, 0x41, 0x59, 0x52, 0, 12], 6, 0⟩, mkItem "i" 0 "t") ∧
    readChunksStep [] 1
        ⟨⟨[0x45, 0x4E, 0x43, 0x4F, 0, 0, 0, 4, 0, 0, 0, 2], 0, 12⟩, mkLXOFile, none⟩ =
      dispatchChunk [] 1 "ENCO" 4 4
        ⟨⟨[0x45, 0x4E, 0x43, 0x4F, 0, 0, 0, 4, 0, 0, 0, 2], 8, 4⟩, mkLXOFile, none⟩ ∧
    itemSubStep [] none ⟨[0x56, 0x4E, 0x41, 0x4D, 0, 2, 0x41, 0x00], 0, 8⟩
        (mkItem "i" 0 "t") =
      itemSubDispatch none "VNAM" 2 2
        ⟨[0x56, 0x4E, 0x41, 0x4D, 0, 2, 0x41, 0x00], 6, 2⟩ (mkItem "i" 0 "t") ∧
    actnSubStep ["ACTN"] none ⟨[0x49, 0x54, 0x45, 0x4D, 0, 4, 0, 0, 0, 7], 0, 10⟩
        [] none = .error .nameError := by
  refine ⟨?_, ?_, ?_, ?_, ?_⟩
  · exact c2_filter_skip.1 ["VRSN"] 1
      ⟨⟨[0x54, 0x41, 0x47, 0x53, 0, 0, 0, 2, 0x41, 0x00], 0, 10⟩, mkLXOFile, none⟩
      "TAGS" ⟨[0x54, 0x41, 0x47, 0x53, 0, 0, 0, 2, 0x41, 0x00], 4, 6⟩ 2
      ⟨[0x54, 0x41, 0x47, 0x53, 0, 0, 0, 2, 0x41, 0x00], 8, 2⟩
      (by decide) (by decide) (by decide) (by decide)
  · exact c2_filter_skip.2.1 ["ITEMVNAM"] none
      ⟨[0x4C, 0x41, 0x59, 0x52, 0, 12], 0, 6⟩ (mkItem "i" 0 "t")
      "LAYR" ⟨[0x4C, 0x41, 0x59, 0x52, 0, 12], 4, 2⟩ 12
      ⟨[0x4C, 0x41, 0x59, 0x52, 0, 12], 6, 0⟩
      (by decide) (by decide) (by decide) (by decide)
  · exact c2_filter_skip.2.2.1 1
      ⟨⟨[0x45, 0x4E, 0x43, 0x4F, 0, 0, 0, 4, 0, 0, 0, 2], 0, 12⟩, mkLXOFile, none⟩
      "ENCO" ⟨[0x45, 0x4E, 0x43, 0x4F, 0, 0, 0, 4, 0, 0, 0, 2], 4, 8⟩ 4
      ⟨[0x45, 0x4E, 0x43, 0x4F, 0, 0, 0, 4, 0, 0, 0, 2], 8, 4⟩
      (by decide) (by decide)
  · exact c2_filter_skip.2.2.2.1 none
      ⟨[0x56, 0x4E, 0x41, 0x4D, 0, 2, 0x41, 0x00], 0, 8⟩ (mkItem "i" 0 "t")
      "VNAM" ⟨[0x56, 0x4E, 0x41, 0x4D, 0, 2, 0x41, 0x00], 4, 4⟩ 2
      ⟨[0x56, 0x4E, 0x41, 0x4D, 0, 2, 0x41, 0x00], 6, 2⟩
      (by decide) (by decide)
  · exact c2_filter_skip.2.2.2.2 ["ACTN"] none
      ⟨[0x49, 0x54, 0x45, 0x4D, 0, 4, 0, 0, 0, 7], 0, 10⟩ [] none
      "ITEM" ⟨[0x49, 0x54, 0x45, 0x4D, 0, 4, 0, 0, 0, 7], 4, 6⟩ 4
      ⟨[0x49, 0x54, 0x45, 0x4D, 0, 4, 0, 0, 0, 7], 6, 4⟩
      (by decide) (by decide) (by decide)

theorem curLayerModNone (f : LXOLayer → LXOLayer) :
    curLayerMod f none = .error .attributeError := rfl

/-- The POLS loop can never hand back a layer when it started with none:
its body's append to `currentLayer.polygons` raises before any recursion. -/
theorem polsLoopNone (cs : Nat) (snap : Int) (fuel : Nat) (r : Rd)
    (p : Rd × Option LXOLayer) (h : polsLoop cs snap fuel r none = .ok p) :
    p.2 = none := by
  match fuel with
  | 0 =>
    rw [polsLoop] at h
    split at h
    · cases h
    · cases h
      rfl
  | fuel + 1 =>
    rw [polsLoop] at h
    split at h
    · cases hu : readU2 r with
      | error e =>
        rw [hu, pyBindErr] at h
        cases h
      | ok q =>
        obtain ⟨vc, r1⟩ := q
        simp only [hu, pyBindOk] at h
        cases hv : vxTimes vc r1 with
        | error e =>
          rw [hv, pyBindErr] at h
          cases h
        | ok q2 =>
          obtain ⟨pts, r2⟩ := q2
          simp only [hv, pyBindOk, curLayerModNone, pyBindErr] at h
          cases h
    · cases h
      rfl

/-- C10 (amended): with no current layer established by a LAYR chunk,
decoding a POLS, PNTS or PTAG chunk always fails (the store into the `None`
current layer — or, on a shorter stream, the read itself — raises, and the
error aborts the decode; no layer is created and no recovery exists); a
VMAP or VMAD chunk fails in the same way when its map type is the UV marker
`'TXUV'`, but a VMAP/VMAD chunk of any *other* map type never touches the
current layer: it is fully consumed and the layer context is returned
unchanged, so such a chunk decodes without any exception (the
counterexample to the claim as stated is `c10_vmap_nontxuv_cex`). -/
theorem c10_missing_layer :
    (∀ (fuel cs : Nat) (snap : Int) (r : Rd) (res : Rd × Option LXOLayer),
      decodePOLS fuel cs snap r none ≠ .ok res)
    ∧ (∀ (fuel cs : Nat) (snap : Int) (r : Rd) (res : Rd × Option LXOLayer),
      decodePNTS fuel cs snap r none ≠ .ok res)
    ∧ (∀ (fuel cs : Nat) (snap : Int) (r : Rd) (res : Rd × Option LXOLayer),
      decodePTAG fuel cs snap r none ≠ .ok res)
    ∧ (∀ (fuel cs : Nat) (snap : Int) (r r1 : Rd) (res : Rd × Option LXOLayer),
      readID4 r = .ok ("TXUV", r1) →
      decodeVMAP fuel cs snap r none ≠ .ok res)
    ∧ (∀ (fuel cs : Nat) (snap : Int) (r r1 : Rd) (res : Rd × Option LXOLayer),
      readID4 r = .ok ("TXUV", r1) →
      decodeVMAD fuel cs snap r none ≠ .ok res)
    ∧ (∀ (fuel cs : Nat) (snap : Int) (r r1 : Rd) (cl : Option LXOLayer)
        (t : String) (res : Rd × Option LXOLayer),
      readID4 r = .ok (t, r1) → t ≠ "TXUV" →
      decodeVMAP fuel cs snap r cl = .ok res → res.2 = cl)
    ∧ (∀ (fuel cs : Nat) (snap : Int) (r r1 : Rd) (cl : Option LXOLayer)
        (t : String) (res : Rd × Option LXOLayer),
      readID4 r = .ok (t, r1) → t ≠ "TXUV" →
      decodeVMAD fuel cs snap r cl = .ok res → res.2 = cl) := by
  refine ⟨?_, ?_, ?_, ?_, ?_, ?_, ?_⟩
  · intro fuel cs snap r res h
    unfold decodePOLS at h
    cases hid : readID4 r with
    | error e =>
      rw [hid, pyBindErr] at h
      cases h
    | ok q =>
      obtain ⟨t, r1⟩ := q
      simp only [hid, pyBindOk] at h
      by_cases hsub : t = "SUBD" ∨ t = "PSUB"
      · rw [if_pos hsub, curLayerModNone, pyBindErr] at h
        cases h
      · simp only [if_neg hsub, pyBindOk] at h
        cases hloop : polsLoop cs snap fuel r1 none with
        | error e =>
          rw [hloop, pyBindErr] at h
          cases h
        | ok p =>
          obtain ⟨r2, cl2⟩ := p
          have h2 := polsLoopNone cs snap fuel r1 (r2, cl2) hloop
          simp only at h2
          subst h2
          simp only [hloop, pyBindOk, curLayerModNone, pyBindErr] at h
          cases h
  · intro fuel cs snap r res h
    unfold decodePNTS at h
    cases hloop : pntsLoop cs snap fuel r [] with
    | error e =>
      rw [hloop, pyBindErr] at h
      cases h
    | ok q =>
      obtain ⟨points, r1⟩ := q
      simp only [hloop, pyBindOk, curLayerModNone, pyBindErr] at h
      cases h
  · intro fuel cs snap r res h
    unfold decodePTAG at h
    cases hid : readID4 r with
    | error e =>
      rw [hid, pyBindErr] at h
      cases h
    | ok q =>
      obtain ⟨t, r1⟩ := q
      simp only [hid, pyBindOk] at h
      cases hloop : ptagLoop cs snap fuel r1 [] with
      | error e =>
        rw [hloop, pyBindErr] at h
        cases h
      | ok p =>
        obtain ⟨ptags, r2⟩ := p
        simp only [hloop, pyBindOk, curLayerModNone, pyBindErr] at h
        cases h
  · intro fuel cs snap r r1 res hid h
    unfold decodeVMAP at h
    simp only [hid, pyBindOk] at h
    cases hu : readU2 r1 with
    | error e =>
      rw [hu, pyBindErr] at h
      cases h
    | ok q =>
      obtain ⟨dim, r2⟩ := q
      simp only [hu, pyBindOk] at h
      cases hs : readS0 r2 with
      | error e =>
        rw [hs, pyBindErr] at h
        cases h
      | ok q2 =>
        obtain ⟨name, r3⟩ := q2
        simp only [hs, pyBindOk] at h
        cases hloop : vmapLoop cs snap dim fuel r3 [] with
        | error e =>
          rw [hloop, pyBindErr] at h
          cases h
        | ok p =>
          obtain ⟨values, r4⟩ := p
          simp only [hloop, pyBindOk, if_pos rfl, curLayerModNone, pyBindErr] at h
          cases h
  · intro fuel cs snap r r1 res hid h
    unfold decodeVMAD at h
    simp only [hid, pyBindOk] at h
    cases hu : readU2 r1 with
    | error e =>
      rw [hu, pyBindErr] at h
      cases h
    | ok q =>
      obtain ⟨dim, r2⟩ := q
      simp only [hu, pyBindOk] at h
      cases hs : readS0 r2 with
      | error e =>
        rw [hs, pyBindErr] at h
        cases h
      | ok q2 =>
        obtain ⟨name, r3⟩ := q2
        simp only [hs, pyBindOk] at h
        cases hloop : vmadLoop cs snap dim fuel r3 [] with
        | error e =>
          rw [hloop, pyBindErr] at h
          cases h
        | ok p =>
          obtain ⟨values, r4⟩ := p
          simp only [hloop, pyBindOk, if_pos rfl, curLayerModNone, pyBindErr] at h
          cases h
  · intro fuel cs snap r r1 cl t res hid ht h
    unfold decodeVMAP at h
    simp only [hid, pyBindOk] at h
    cases hu : readU2 r1 with
    | error e =>
      rw [hu, pyBindErr] at h
      cases h
    | ok q =>
      obtain ⟨dim, r2⟩ := q
      simp only [hu, pyBindOk] at h
      cases hs : readS0 r2 with
      | error e =>
        rw [hs, pyBindErr] at h
        cases h
      | ok q2 =>
        obtain ⟨name, r3⟩ := q2
        simp only [hs, pyBindOk] at h
        cases hloop : vmapLoop cs snap dim fuel r3 [] with
        | error e =>
          rw [hloop, pyBindErr] at h
          cases h
        | ok p =>
          obtain ⟨values, r4⟩ := p
          simp only [hloop, pyBindOk, if_neg ht] at h
          rw [Except.ok.injEq] at h
          rw [← h]
  · intro fuel cs snap r r1 cl t res hid ht h
    unfold decodeVMAD at h
    simp only [hid, pyBindOk] at h
    cases hu : readU2 r1 with
    | error e =>
      rw [hu, pyBindErr] at h
      cases h
    | ok q =>
      obtain ⟨dim, r2⟩ := q
      simp only [hu, pyBindOk] at h
      cases hs : readS0 r2 with
      | error e =>
        rw [hs, pyBindErr] at h
        cases h
      | ok q2 =>
        obtain ⟨name, r3⟩ := q2
        simp only [hs, pyBindOk] at h
        cases hloop : vmadLoop cs snap dim fuel r3 [] with
        | error e =>
          rw [hloop, pyBindErr] at h
          cases h
        | ok p =>
          obtain ⟨values, r4⟩ := p
          simp only [hloop, pyBindOk, if_neg ht] at h
          rw [Except.ok.injEq] at h
          rw [← h]

/-- C10 (counterexample): a VMAP chunk whose map type is `'WGHT'` (not the
UV marker), decoded with an empty filter before any LAYR chunk, completes
the whole decode successfully — no exception is raised, the budget lands on
zero, and the result holds no layers — refuting the claim that every
POLS/PNTS/VMAP/VMAD/PTAG chunk decoded without a current layer makes the
decode abort. -/
theorem c10_vmap_nontxuv_cex :
    readChunksLoop [] 2
      ⟨⟨[0x56, 0x4D, 0x41, 0x50, 0, 0, 0, 8, 0x57, 0x47, 0x48, 0x54, 0, 0, 0x41, 0x00],
        0, 16⟩, mkLXOFile, none⟩ =
      .ok ⟨⟨[0x56, 0x4D, 0x41, 0x50, 0, 0, 0, 8, 0x57, 0x47, 0x48, 0x54, 0, 0, 0x41, 0x00],
        16, 0⟩, mkLXOFile, none⟩ ∧
    mkLXOFile.layers = [] := by
  exact ⟨by decide, rfl⟩

/-- Witness for `c10_missing_layer`: a TXUV VMAP with no current layer
fails on a concrete stream, and a WGHT VMAP returns its layer context
unchanged on a concrete stream. -/
theorem c10_missing_layer_witness :
    decodeVMAP 2 8 8 ⟨[0x54, 0x58, 0x55, 0x56, 0, 0, 0x41, 0x00], 0, 8⟩ none ≠
      .ok (⟨[0x54, 0x58, 0x55, 0x56, 0, 0, 0x41, 0x00], 8, 0⟩, none) ∧
    decodePNTS 1 0 0 ⟨[], 0, 0⟩ none ≠ .ok (⟨[], 0, 0⟩, none) := by
  constructor
  · exact c10_missing_layer.2.2.2.1 2 8 8
      ⟨[0x54, 0x58, 0x55, 0x56, 0, 0, 0x41, 0x00], 0, 8⟩
      ⟨[0x54, 0x58, 0x55, 0x56, 0, 0, 0x41, 0x00], 4, 4⟩
      (⟨[0x54, 0x58, 0x55, 0x56, 0, 0, 0x41, 0x00], 8, 0⟩, none)
      (by decide)
  · exact c10_missing_layer.2.1 1 0 0 ⟨[], 0, 0⟩ (⟨[], 0, 0⟩, none)

/-- C6 (amended): a CHNL subchunk's (name, datatype, value) record is
*always* appended to the item's CHNL list — the source performs no lookup
against the file's channel-name table in this branch, so resolvable and
unresolvable names are stored alike. -/
theorem c6_chnl_always_appended (chN : Option (List String)) (subSize : Nat)
    (snap : Int) (r : Rd) (item : LXOItem) (name : String) (r1 : Rd)
    (dt : Nat) (r2 : Rd) (v : PyVal) (r3 : Rd)
    (h1 : readS0 r = .ok (name, r1)) (h2 : readU2 r1 = .ok (dt, r2))
    (h3 : readValue dt r2 = .ok (v, r3)) :
    itemSubDispatch chN "CHNL" subSize snap r item =
      .ok (r3, { item with CHNL := item.CHNL ++ [(name, dt, v)] }) := by
  unfold itemSubDispatch
  simp only [String.reduceEq, reduceIte, h1, pyBindOk, h2, h3]

/-- Witness for `c6_chnl_always_appended`: a concrete CHNL subchunk body
`"B\0" ++ u16 1 ++ i32 7` appended to a fresh item. -/
theorem c6_chnl_always_appended_witness :
    itemSubDispatch none "CHNL" 8 8 ⟨[0x42, 0x00, 0, 1, 0, 0, 0, 7], 0, 8⟩
        (mkItem "i" 0 "t") =
      .ok (⟨[0x42, 0x00, 0, 1, 0, 0, 0, 7], 8, 0⟩,
           { mkItem "i" 0 "t" with CHNL := [("B", 1, PyVal.int 7)] }) := by
  have h := c6_chnl_always_appended none 8 8 ⟨[0x42, 0x00, 0, 1, 0, 0, 0, 7], 0, 8⟩
    (mkItem "i" 0 "t") "B" ⟨[0x42, 0x00, 0, 1, 0, 0, 0, 7], 2, 6⟩
    1 ⟨[0x42, 0x00, 0, 1, 0, 0, 0, 7], 4, 4⟩
    (PyVal.int 7) ⟨[0x42, 0x00, 0, 1, 0, 0, 0, 7], 8, 0⟩
    (by decide) (by decide) (by decide)
  exact h

/-- C6 (counterexample): a CHNL record whose name `"A"` *is* present in the
file's channel-name table is still appended to the item's CHNL list,
refuting the claim's "when (and only when) the name is not present". -/
theorem c6_chnl_resolvable_cex :
    itemSubDispatch (some ["A"]) "CHNL" 8 8 ⟨[0x41, 0x00, 0, 1, 0, 0, 0, 5], 0, 8⟩
        (mkItem "i" 0 "t") =
      .ok (⟨[0x41, 0x00, 0, 1, 0, 0, 0, 5], 8, 0⟩,
           { mkItem "i" 0 "t" with CHNL := [("A", 1, PyVal.int 5)] }) ∧
    "A" ∈ (["A"] : List String) ∧
    [("A", 1, PyVal.int 5)] ≠ (mkItem "i" 0 "t").CHNL := by
  refine ⟨by decide, by decide, by decide⟩

/-- C7 (amended): the ENCO decoder reads one u32 and stores the *raw
integer* on the file aggregate, unconditionally — the `sENCODINGS` label
table is never consulted on the non-debug path, so no range check happens
and no error is possible beyond truncation. -/
theorem c7_enco_stores_raw (tags : List String) (fuel chunkSize : Nat)
    (snap : Int) (s : St) (v : Nat) (r : Rd)
    (h : readU4 s.rd = .ok (v, r)) :
    dispatchChunk tags fuel "ENCO" chunkSize snap s =
      .ok ⟨r, { s.lxo with encoding := some v }, s.currentLayer⟩ := by
  unfold dispatchChunk
  simp only [String.reduceEq, reduceIte, h, pyBindOk]

/-- Witness for `c7_enco_stores_raw`: storing the out-of-range index 8. -/
theorem c7_enco_stores_raw_witness :
    dispatchChunk [] 1 "ENCO" 4 4 ⟨⟨[0, 0, 0, 8], 0, 4⟩, mkLXOFile, none⟩ =
      .ok ⟨⟨[0, 0, 0, 8], 4, 0⟩, { mkLXOFile with encoding := some 8 }, none⟩ :=
  c7_enco_stores_raw [] 1 4 4 ⟨⟨[0, 0, 0, 8], 0, 4⟩, mkLXOFile, none⟩ 8
    ⟨[0, 0, 0, 8], 4, 0⟩ (by decide)

/-- C7 (counterexample): a whole decode of a single ENCO chunk carrying the
index 8 — one past the end of the 8-entry `sENCODINGS` table — succeeds,
storing the raw 8; no UnresolvedIndex-style error aborts the decode. -/
theorem c7_enco_out_of_range_cex :
    readChunksLoop [] 2
      ⟨⟨[0x45, 0x4E, 0x43, 0x4F, 0, 0, 0, 4, 0, 0, 0, 8], 0, 12⟩, mkLXOFile, none⟩ =
      .ok ⟨⟨[0x45, 0x4E, 0x43, 0x4F, 0, 0, 0, 4, 0, 0, 0, 8], 12, 0⟩,
           { mkLXOFile with encoding := some 8 }, none⟩ ∧
    sENCODINGS.length = 8 := by
  refine ⟨by decide, by decide⟩

/-- C8: the CHNC subchunk handler reads the u16 length, but its
byte-accumulation loop runs `data += self.readU1()` on the `str` it
initialised with `""` — for every non-zero length the first pass consumes
one byte and raises `TypeError`, so the handler can only return on a
zero length (where it appends the empty record and reads no pad byte).
The claimed accumulate-then-pad behaviour never happens for length ≥ 1. -/
theorem c8_chnc_typeerror :
    (∀ (chN : Option (List String)) (subSize : Nat) (snap : Int) (r : Rd)
        (item : LXOItem) (size : Nat) (r1 : Rd),
      readU2 r = .ok (size, r1) → 0 < size →
      ∀ res, itemSubDispatch chN "CHNC" subSize snap r item ≠ .ok res)
    ∧ itemSubDispatch none "CHNC" 4 4 ⟨[0, 1, 0xAB, 0], 0, 4⟩ (mkItem "i" 0 "t") =
        .error .typeError
    ∧ itemSubDispatch none "CHNC" 2 2 ⟨[0, 0], 0, 2⟩ (mkItem "i" 0 "t") =
        .ok (⟨[0, 0], 2, 0⟩, { mkItem "i" 0 "t" with CHNC := [""] }) := by
  refine ⟨?_, by decide, by decide⟩
  intro chN subSize snap r item size r1 h1 hpos res h
  unfold itemSubDispatch at h
  simp only [String.reduceEq, reduceIte, h1, pyBindOk] at h
  rw [if_neg (by omega)] at h
  cases hu : readU1 r1 with
  | error e =>
    rw [hu, pyBindErr] at h
    cases h
  | ok q =>
    obtain ⟨b, r2⟩ := q
    simp only [hu, pyBindOk] at h
    cases h

/-- Witness for `c8_chnc_typeerror`: the universal part applied to the
concrete CHNC subchunk of length 1. -/
theorem c8_chnc_typeerror_witness :
    itemSubDispatch none "CHNC" 4 4 ⟨[0, 1, 0xAB, 0], 0, 4⟩ (mkItem "i" 0 "t") ≠
      .ok (⟨[0, 1, 0xAB, 0], 4, 0⟩, mkItem "i" 0 "t") :=
  c8_chnc_typeerror.1 none 4 4 ⟨[0, 1, 0xAB, 0], 0, 4⟩ (mkItem "i" 0 "t") 1
    ⟨[0, 1, 0xAB, 0], 2, 2⟩ (by decide) (by decide)
    (⟨[0, 1, 0xAB, 0], 4, 0⟩, mkItem "i" 0 "t")

/-- A current-layer update whose function leaves `materials` untouched
preserves emptiness of `materials`. -/
theorem curLayerModPres (f : LXOLayer → LXOLayer)
    (cl cl' : Option LXOLayer) (h : curLayerMod f cl = .ok cl')
    (hf : ∀ l, (f l).materials = l.materials)
    (hcl : ∀ l, cl = some l → l.materials = []) :
    ∀ l, cl' = some l → l.materials = [] := by
  cases cl with
  | none => cases h
  | some l0 =>
    rw [show curLayerMod f (some l0) = .ok (some (f l0)) from rfl, Except.ok.injEq] at h
    subst h
    intro l hl
    rw [Option.some.injEq] at hl
    subst hl
    rw [hf]
    exact hcl l0 rfl

/-- Flushing the layer under construction preserves all-materials-empty. -/
theorem flushLayerMats (lxo : LXOFile) (cl : Option LXOLayer)
    (hinv : matInv lxo cl) :
    ∀ l ∈ (flushLayer lxo cl).layers, l.materials = [] := by
  cases cl with
  | none => exact hinv.1
  | some l0 =>
    intro l hl
    rw [show flushLayer lxo (some l0) = { lxo with layers := lxo.layers ++ [l0] }
      from rfl] at hl
    simp only [List.mem_append, List.mem_singleton] at hl
    rcases hl with hl | hl
    · exact hinv.1 l hl
    · rw [hl]
      exact hinv.2 l0 rfl

/-- A freshly decoded LAYR chunk's layer has an empty `materials` map. -/
theorem decodeLAYRMats (cs : Nat) (snap : Int) (r : Rd) (p : LXOLayer × Rd)
    (h : decodeLAYR cs snap r = .ok p) : p.1.materials = [] := by
  unfold decodeLAYR at h
  repeat
    rw [exceptBindEqOk] at h
    obtain ⟨_, -, h⟩ := h
  rw [Except.ok.injEq] at h
  rw [← h]
  rfl

/-- The POLS loop preserves emptiness of the current layer's materials. -/
theorem polsLoopMats (cs : Nat) (snap : Int) : ∀ (fuel : Nat) (r : Rd)
    (cl : Option LXOLayer) (p : Rd × Option LXOLayer),
    polsLoop cs snap fuel r cl = .ok p →
    (∀ l, cl = some l → l.materials = []) →
    ∀ l, p.2 = some l → l.materials = [] := by
  intro fuel
  induction fuel with
  | zero =>
    intro r cl p h hcl
    rw [polsLoop] at h
    split at h
    · cases h
    · rw [Except.ok.injEq] at h
      rw [← h]
      exact hcl
  | succ fuel ih =>
    intro r cl p h hcl
    rw [polsLoop] at h
    split at h
    · rw [exceptBindEqOk] at h
      obtain ⟨a, -, h⟩ := h
      rw [exceptBindEqOk] at h
      obtain ⟨b, -, h⟩ := h
      rw [exceptBindEqOk] at h
      obtain ⟨cl1, hcl1, h⟩ := h
      exact ih _ _ _ h (curLayerModPres _ cl cl1 hcl1 (fun l => rfl) hcl)
    · rw [Except.ok.injEq] at h
      rw [← h]
      exact hcl

/-- The POLS decoder preserves emptiness of the current layer's materials. -/
theorem decodePOLSMats (fuel cs : Nat) (snap : Int) (r : Rd) (cl : Option LXOLayer)
    (p : Rd × Option LXOLayer) (h : decodePOLS fuel cs snap r cl = .ok p)
    (hcl : ∀ l, cl = some l → l.materials = []) :
    ∀ l, p.2 = some l → l.materials = [] := by
  unfold decodePOLS at h
  cases hid : readID4 r with
  | error e =>
    rw [hid, pyBindErr] at h
    cases h
  | ok q =>
    obtain ⟨t, r1⟩ := q
    simp only [hid, pyBindOk] at h
    by_cases hsub : t = "SUBD" ∨ t = "PSUB"
    · rw [if_pos hsub] at h
      cases hclm : curLayerMod (fun l => { l with isSubD := true }) cl with
      | error e =>
        rw [hclm, pyBindErr] at h
        cases h
      | ok cl1 =>
        simp only [hclm, pyBindOk] at h
        have hcl1 := curLayerModPres _ cl cl1 hclm (fun l => rfl) hcl
        rw [exceptBindEqOk] at h
        obtain ⟨q2, hq2, h⟩ := h
        have hq2m := polsLoopMats cs snap fuel r1 cl1 q2 hq2 hcl1
        rw [exceptBindEqOk] at h
        obtain ⟨cl3, hcl3, h⟩ := h
        rw [Except.ok.injEq] at h
        rw [← h]
        exact curLayerModPres _ q2.2 cl3 hcl3 (fun l => rfl) hq2m
    · rw [if_neg hsub] at h
      rw [exceptBindEqOk] at h
      obtain ⟨q2, hq2, h⟩ := h
      have hq2m := polsLoopMats cs snap fuel r1 cl q2 hq2 hcl
      rw [exceptBindEqOk] at h
      obtain ⟨cl3, hcl3, h⟩ := h
      rw [Except.ok.injEq] at h
      rw [← h]
      exact curLayerModPres _ q2.2 cl3 hcl3 (fun l => rfl) hq2m

/-- The PNTS decoder preserves emptiness of the current layer's materials. -/
theorem decodePNTSMats (fuel cs : Nat) (snap : Int) (r : Rd) (cl : Option LXOLayer)
    (p : Rd × Option LXOLayer) (h : decodePNTS fuel cs snap r cl = .ok p)
    (hcl : ∀ l, cl = some l → l.materials = []) :
    ∀ l, p.2 = some l → l.materials = [] := by
  unfold decodePNTS at h
  rw [exceptBindEqOk] at h
  obtain ⟨a, -, h⟩ := h
  rw [exceptBindEqOk] at h
  obtain ⟨cl1, hcl1, h⟩ := h
  rw [Except.ok.injEq] at h
  rw [← h]
  exact curLayerModPres _ cl cl1 hcl1 (fun l => rfl) hcl

/-- The PTAG decoder preserves emptiness of the current layer's materials. -/
theorem decodePTAGMats (fuel cs : Nat) (snap : Int) (r : Rd) (cl : Option LXOLayer)
    (p : Rd × Option LXOLayer) (h : decodePTAG fuel cs snap r cl = .ok p)
    (hcl : ∀ l, cl = some l → l.materials = []) :
    ∀ l, p.2 = some l → l.materials = [] := by
  unfold decodePTAG at h
  rw [exceptBindEqOk] at h
  obtain ⟨a, -, h⟩ := h
  rw [exceptBindEqOk] at h
  obtain ⟨b, -, h⟩ := h
  rw [exceptBindEqOk] at h
  obtain ⟨cl1, hcl1, h⟩ := h
  rw [Except.ok.injEq] at h
  rw [← h]
  exact curLayerModPres _ cl cl1 hcl1 (fun l => rfl) hcl

/-- The VMAP decoder preserves emptiness of the current layer's materials. -/
theorem decodeVMAPMats (fuel cs : Nat) (snap : Int) (r : Rd) (cl : Option LXOLayer)
    (p : Rd × Option LXOLayer) (h : decodeVMAP fuel cs snap r cl = .ok p)
    (hcl : ∀ l, cl = some l → l.materials = []) :
    ∀ l, p.2 = some l → l.materials = [] := by
  unfold decodeVMAP at h
  cases hid : readID4 r with
  | error e =>
    rw [hid, pyBindErr] at h
    cases h
  | ok q =>
    obtain ⟨t, r1⟩ := q
    simp only [hid, pyBindOk] at h
    cases hu : readU2 r1 with
    | error e =>
      rw [hu, pyBindErr] at h
      cases h
    | ok q2 =>
      obtain ⟨dim, r2⟩ := q2
      simp only [hu, pyBindOk] at h
      cases hs : readS0 r2 with
      | error e =>
        rw [hs, pyBindErr] at h
        cases h
      | ok q3 =>
        obtain ⟨name, r3⟩ := q3
        simp only [hs, pyBindOk] at h
        cases hloop : vmapLoop cs snap dim fuel r3 [] with
        | error e =>
          rw [hloop, pyBindErr] at h
          cases h
        | ok q4 =>
          obtain ⟨values, r4⟩ := q4
          simp only [hloop, pyBindOk] at h
          by_cases htx : t = "TXUV"
          · rw [if_pos htx] at h
            cases hclm : curLayerMod
                (fun l => { l with uvMaps := dset name values l.uvMaps }) cl with
            | error e =>
              rw [hclm, pyBindErr] at h
              cases h
            | ok cl1 =>
              simp only [hclm, pyBindOk] at h
              rw [Except.ok.injEq] at h
              rw [← h]
              exact curLayerModPres _ cl cl1 hclm (fun l => rfl) hcl
          · rw [if_neg htx, Except.ok.injEq] at h
            rw [← h]
            exact hcl

/-- The VMAD decoder preserves emptiness of the current layer's materials. -/
theorem decodeVMADMats (fuel cs : Nat) (snap : Int) (r : Rd) (cl : Option LXOLayer)
    (p : Rd × Option LXOLayer) (h : decodeVMAD fuel cs snap r cl = .ok p)
    (hcl : ∀ l, cl = some l → l.materials = []) :
    ∀ l, p.2 = some l → l.materials = [] := by
  unfold decodeVMAD at h
  cases hid : readID4 r with
  | error e =>
    rw [hid, pyBindErr] at h
    cases h
  | ok q =>
    obtain ⟨t, r1⟩ := q
    simp only [hid, pyBindOk] at h
    cases hu : readU2 r1 with
    | error e =>
      rw [hu, pyBindErr] at h
      cases h
    | ok q2 =>
      obtain ⟨dim, r2⟩ := q2
      simp only [hu, pyBindOk] at h
      cases hs : readS0 r2 with
      | error e =>
        rw [hs, pyBindErr] at h
        cases h
      | ok q3 =>
        obtain ⟨name, r3⟩ := q3
        simp only [hs, pyBindOk] at h
        cases hloop : vmadLoop cs snap dim fuel r3 [] with
        | error e =>
          rw [hloop, pyBindErr] at h
          cases h
        | ok q4 =>
          obtain ⟨values, r4⟩ := q4
          simp only [hloop, pyBindOk] at h
          by_cases htx : t = "TXUV"
          · rw [if_pos htx] at h
            cases hclm : curLayerMod
                (fun l => { l with uvMapsDisco := dset name values l.uvMapsDisco }) cl with
            | error e =>
              rw [hclm, pyBindErr] at h
              cases h
            | ok cl1 =>
              simp only [hclm, pyBindOk] at h
              rw [Except.ok.injEq] at h
              rw [← h]
              exact curLayerModPres _ cl cl1 hclm (fun l => rfl) hcl
          · rw [if_neg htx, Except.ok.injEq] at h
            rw [← h]
            exact hcl

/-- One top-level dispatch preserves the empty-materials invariant:
no chunk decoder ever populates a layer's `materials` mapping. -/
theorem dispatchChunkMats (tags : List String) (fuel : Nat) (chunkID : String)
    (cs : Nat) (snap : Int) (s s1 : St)
    (h : dispatchChunk tags fuel chunkID cs snap s = .ok s1)
    (hinv : matInv s.lxo s.currentLayer) :
    matInv s1.lxo s1.currentLayer := by
  unfold dispatchChunk at h
  by_cases hDESC : chunkID = "DESC"
  · rw [if_pos hDESC] at h
    repeat
      rw [exceptBindEqOk] at h
      obtain ⟨_, -, h⟩ := h
    rw [Except.ok.injEq] at h
    subst h
    exact ⟨hinv.1, hinv.2⟩
  · rw [if_neg hDESC] at h
    by_cases hVRSN : chunkID = "VRSN"
    · rw [if_pos hVRSN] at h
      repeat
        rw [exceptBindEqOk] at h
        obtain ⟨_, -, h⟩ := h
      rw [Except.ok.injEq] at h
      subst h
      exact ⟨hinv.1, hinv.2⟩
    · rw [if_neg hVRSN] at h
      by_cases hAPPV : chunkID = "APPV"
      · rw [if_pos hAPPV] at h
        repeat
          rw [exceptBindEqOk] at h
          obtain ⟨_, -, h⟩ := h
        rw [Except.ok.injEq] at h
        subst h
        exact ⟨hinv.1, hinv.2⟩
      · rw [if_neg hAPPV] at h
        by_cases hENCO : chunkID = "ENCO"
        · rw [if_pos hENCO] at h
          repeat
            rw [exceptBindEqOk] at h
            obtain ⟨_, -, h⟩ := h
          rw [Except.ok.injEq] at h
          subst h
          exact ⟨hinv.1, hinv.2⟩
        · rw [if_neg hENCO] at h
          by_cases hTAGS : chunkID = "TAGS"
          · rw [if_pos hTAGS] at h
            repeat
              rw [exceptBindEqOk] at h
              obtain ⟨_, -, h⟩ := h
            rw [Except.ok.injEq] at h
            subst h
            exact ⟨hinv.1, hinv.2⟩
          · rw [if_neg hTAGS] at h
            by_cases hCHNM : chunkID = "CHNM"
            · rw [if_pos hCHNM] at h
              repeat
                rw [exceptBindEqOk] at h
                obtain ⟨_, -, h⟩ := h
              rw [Except.ok.injEq] at h
              subst h
              exact ⟨hinv.1, hinv.2⟩
            · rw [if_neg hCHNM] at h
              by_cases hLAYR : chunkID = "LAYR"
              · rw [if_pos hLAYR] at h
                rw [exceptBindEqOk] at h
                obtain ⟨q, hq, h⟩ := h
                rw [Except.ok.injEq] at h
                subst h
                constructor
                · exact flushLayerMats s.lxo s.currentLayer hinv
                · intro l hl
                  rw [Option.some.injEq] at hl
                  subst hl
                  exact decodeLAYRMats _ _ _ _ hq
              · rw [if_neg hLAYR] at h
                by_cases hPOLS : chunkID = "POLS"
                · rw [if_pos hPOLS] at h
                  rw [exceptBindEqOk] at h
                  obtain ⟨q, hq, h⟩ := h
                  rw [Except.ok.injEq] at h
                  subst h
                  exact ⟨hinv.1, decodePOLSMats _ _ _ _ _ _ hq hinv.2⟩
                · rw [if_neg hPOLS] at h
                  by_cases hPNTS : chunkID = "PNTS"
                  · rw [if_pos hPNTS] at h
                    rw [exceptBindEqOk] at h
                    obtain ⟨q, hq, h⟩ := h
                    rw [Except.ok.injEq] at h
                    subst h
                    exact ⟨hinv.1, decodePNTSMats _ _ _ _ _ _ hq hinv.2⟩
                  · rw [if_neg hPNTS] at h
                    by_cases hVMAP : chunkID = "VMAP"
                    · rw [if_pos hVMAP] at h
                      rw [exceptBindEqOk] at h
                      obtain ⟨q, hq, h⟩ := h
                      rw [Except.ok.injEq] at h
                      subst h
                      exact ⟨hinv.1, decodeVMAPMats _ _ _ _ _ _ hq hinv.2⟩
                    · rw [if_neg hVMAP] at h
                      by_cases hVMAD : chunkID = "VMAD"
                      · rw [if_pos hVMAD] at h
                        rw [exceptBindEqOk] at h
                        obtain ⟨q, hq, h⟩ := h
                        rw [Except.ok.injEq] at h
                        subst h
                        exact ⟨hinv.1, decodeVMADMats _ _ _ _ _ _ hq hinv.2⟩
                      · rw [if_neg hVMAD] at h
                        by_cases hPTAG : chunkID = "PTAG"
                        · rw [if_pos hPTAG] at h
                          rw [exceptBindEqOk] at h
                          obtain ⟨q, hq, h⟩ := h
                          rw [Except.ok.injEq] at h
                          subst h
                          exact ⟨hinv.1, decodePTAGMats _ _ _ _ _ _ hq hinv.2⟩
                        · rw [if_neg hPTAG] at h
                          by_cases hENVL : chunkID = "ENVL"
                          · rw [if_pos hENVL] at h
                            repeat
                              rw [exceptBindEqOk] at h
                              obtain ⟨_, -, h⟩ := h
                            rw [Except.ok.injEq] at h
                            subst h
                            exact ⟨hinv.1, hinv.2⟩
                          · rw [if_neg hENVL] at h
                            by_cases hBBOX : chunkID = "BBOX"
                            · rw [if_pos hBBOX] at h
                              repeat
                                rw [exceptBindEqOk] at h
                                obtain ⟨_, -, h⟩ := h
                              rw [Except.ok.injEq] at h
                              subst h
                              exact ⟨hinv.1, hinv.2⟩
                            · rw [if_neg hBBOX] at h
                              by_cases hITEM : chunkID = "ITEM"
                              · rw [if_pos hITEM] at h
                                repeat
                                  rw [exceptBindEqOk] at h
                                  obtain ⟨_, -, h⟩ := h
                                rw [Except.ok.injEq] at h
                                subst h
                                exact ⟨hinv.1, hinv.2⟩
                              · rw [if_neg hITEM] at h
                                by_cases hACTN : chunkID = "ACTN"
                                · rw [if_pos hACTN] at h
                                  repeat
                                    rw [exceptBindEqOk] at h
                                    obtain ⟨_, -, h⟩ := h
                                  rw [Except.ok.injEq] at h
                                  subst h
                                  exact ⟨hinv.1, hinv.2⟩
                                · rw [if_neg hACTN] at h
                                  rw [Except.ok.injEq] at h
                                  subst h
                                  exact ⟨hinv.1, hinv.2⟩

/-- One pass of the top-level walker preserves the empty-materials
invariant (both on the skip path and through dispatch). -/
theorem readChunksStepMats (tags : List String) (fuel : Nat) (s s1 : St)
    (h : readChunksStep tags fuel s = .ok s1)
    (hinv : matInv s.lxo s.currentLayer) :
    matInv s1.lxo s1.currentLayer := by
  unfold readChunksStep at h
  cases hid : readID4 s.rd with
  | error e =>
    rw [hid, pyBindErr] at h
    cases h
  | ok q =>
    obtain ⟨chunkID, r1⟩ := q
    simp only [hid, pyBindOk] at h
    cases hu : readU4 r1 with
    | error e =>
      rw [hu, pyBindErr] at h
      cases h
    | ok q2 =>
      obtain ⟨chunkSize, r2⟩ := q2
      simp only [hu, pyBindOk] at h
      split at h
      · rw [Except.ok.injEq] at h
        subst h
        exact ⟨hinv.1, hinv.2⟩
      · exact dispatchChunkMats tags fuel chunkID chunkSize r2.modSize
          { s with rd := r2 } s1 h hinv

/-- A whole successful walker run from a state satisfying the
empty-materials invariant yields only layers with empty `materials`:
`generateMaterials` is never invoked during decode. -/
theorem readChunksLoopMats (tags : List String) : ∀ (fuel : Nat) (s s1 : St),
    readChunksLoop tags fuel s = .ok s1 →
    matInv s.lxo s.currentLayer →
    ∀ l ∈ s1.lxo.layers, l.materials = [] := by
  intro fuel
  induction fuel with
  | zero =>
    intro s s1 h hinv
    rw [readChunksLoop] at h
    split at h
    · cases h
    · rw [Except.ok.injEq] at h
      subst h
      exact flushLayerMats s.lxo s.currentLayer hinv
  | succ fuel ih =>
    intro s s1 h hinv
    rw [readChunksLoop] at h
    split at h
    · rw [exceptBindEqOk] at h
      obtain ⟨s2, hs2, h⟩ := h
      exact ih s2 s1 h (readChunksStepMats tags (fuel + 1) s s2 hs2 hinv)
    · rw [Except.ok.injEq] at h
      subst h
      exact flushLayerMats s.lxo s.currentLayer hinv


/-- Lookup after an ordered-dict update. -/
theorem dgetDset {β : Type} (k k' : String) (v : β) :
    ∀ (m : List (String × β)),
    dget k' (dset k v m) = if k = k' then some v else dget k' m := by
  intro m
  induction m with
  | nil => simp [dset, dget]
  | cons kv rest ih =>
    obtain ⟨a, b⟩ := kv
    by_cases hak : a = k
    · simp only [dset, if_pos hak, dget]
      by_cases hk : k = k'
      · rw [if_pos hk, if_pos hk]
      · rw [if_neg hk, if_neg hk, if_neg (fun e => hk (hak.symm.trans e))]
    · simp only [dset, if_neg hak, dget]
      by_cases hk : a = k'
      · rw [if_pos hk, if_neg (fun e => hak (hk.trans e.symm)), if_pos hk]
      · rw [if_neg hk, ih]
        by_cases hkk : k = k'
        · rw [if_pos hkk, if_pos hkk]
        · rw [if_neg hkk, if_neg hkk, if_neg hk]

/-- Lookup distributes over append when the key misses the prefix. -/
theorem dgetAppendNone {β : Type} (k : String) (m2 : List (String × β)) :
    ∀ (m1 : List (String × β)), dget k m1 = none →
    dget k (m1 ++ m2) = dget k m2 := by
  intro m1
  induction m1 with
  | nil => intro _; rfl
  | cons kv rest ih =>
    obtain ⟨a, b⟩ := kv
    intro h
    rw [List.cons_append]
    simp only [dget] at h ⊢
    split at h
    · cases h
    · rename_i ha
      rw [if_neg ha]
      exact ih h

/-- Lookup stays in the prefix when the key hits it. -/
theorem dgetAppendSome {β : Type} (k : String) (m2 : List (String × β)) (v : β) :
    ∀ (m1 : List (String × β)), dget k m1 = some v →
    dget k (m1 ++ m2) = some v := by
  intro m1
  induction m1 with
  | nil => intro h; cases h
  | cons kv rest ih =>
    obtain ⟨a, b⟩ := kv
    intro h
    rw [List.cons_append]
    simp only [dget] at h ⊢
    split at h
    · rename_i ha
      rw [if_pos ha]
      exact h
    · rename_i ha
      rw [if_neg ha]
      exact ih h

/-- Lookup after one materials append step. -/
theorem dgetMatAppend (nm : String) (pIdx : Nat) (mats : List (String × List Nat))
    (k : String) :
    dget k (matAppend nm pIdx mats) =
      if nm = k then some ((dget nm mats).getD [] ++ [pIdx]) else dget k mats := by
  cases hm : dget nm mats with
  | none =>
    unfold matAppend
    simp only [hm]
    by_cases hk : nm = k
    · subst hk
      rw [if_pos rfl, dgetAppendNone nm [(nm, [pIdx])] mats hm]
      simp [dget]
    · rw [if_neg hk]
      cases hk2 : dget k mats with
      | none =>
        rw [dgetAppendNone k [(nm, [pIdx])] mats hk2]
        simp [dget, if_neg hk]
      | some w =>
        rw [dgetAppendSome k [(nm, [pIdx])] w mats hk2]
  | some l =>
    unfold matAppend
    simp only [hm]
    rw [dgetDset]
    rfl

/-- The fold inside `generateMaterials`, characterised: each name gains
exactly the polygon indices whose tag index resolves to it, in order. -/
theorem genAuxChar (tn : List String) :
    ∀ (matr : List (Nat × Nat)) (mats : List (String × List Nat)),
    (∀ pt ∈ matr, pt.2 < tn.length) →
    ∃ mats', generateMaterialsAux (some tn) matr mats = .ok mats' ∧
      ∀ name, dget name mats' =
        if matrPolys tn matr name = [] then dget name mats
        else some ((dget name mats).getD [] ++ matrPolys tn matr name) := by
  intro matr
  induction matr with
  | nil =>
    intro mats hb
    refine ⟨mats, rfl, ?_⟩
    intro name
    rw [show matrPolys tn [] name = [] from rfl, if_pos rfl]
  | cons pt rest ih =>
    obtain ⟨pIdx, tIdx⟩ := pt
    intro mats hb
    have htl : tIdx < tn.length := hb (pIdx, tIdx) (List.mem_cons_self _ _)
    have hlk : lookupTagname (some tn) tIdx = .ok (tn.get ⟨tIdx, htl⟩) := by
      simp [lookupTagname, htl]
    obtain ⟨mats', hrun, hchar⟩ := ih (matAppend (tn.get ⟨tIdx, htl⟩) pIdx mats)
      (fun pt hpt => hb pt (List.mem_cons_of_mem _ hpt))
    refine ⟨mats', ?_, ?_⟩
    · rw [generateMaterialsAux]
      simp only [hlk, pyBindOk]
      exact hrun
    · intro name
      rw [hchar name]
      have hget : tn.get? tIdx = some (tn.get ⟨tIdx, htl⟩) := List.get?_eq_get htl
      have hmp : matrPolys tn ((pIdx, tIdx) :: rest) name =
          if tn.get ⟨tIdx, htl⟩ = name then pIdx :: matrPolys tn rest name
          else matrPolys tn rest name := by
        unfold matrPolys
        rw [List.filterMap_cons]
        simp only [hget, Option.some.injEq]
        by_cases he : tn.get ⟨tIdx, htl⟩ = name
        · rw [if_pos he, if_pos he]
        · rw [if_neg he, if_neg he]
      rw [hmp, dgetMatAppend]
      by_cases he : tn.get ⟨tIdx, htl⟩ = name
      · subst he
        simp only [eq_self_iff_true, if_true]
        rw [if_neg (List.cons_ne_nil _ _)]
        by_cases hF : matrPolys tn rest (tn.get ⟨tIdx, htl⟩) = []
        · rw [if_pos hF, hF]
        · rw [if_neg hF]
          simp [List.append_assoc]
      · rw [if_neg he, if_neg he]

/-- C5: the materials derivation.  (i) For a decoded layer (whose
`materials` map is empty) with a MATR ptag list whose tag indices are in
range, `generateMaterials` succeeds and maps each resolved material name to
exactly the ordered list of polygon indices paired with a tag index
resolving to that name, touching nothing else on the layer.  (ii) A layer
without a MATR ptag entry is returned unchanged (its mapping stays empty).
(iii) The spec's concrete example holds.  (iv) Decoding never populates
`materials`: a whole walker run from a state whose layers all have empty
materials (as the initial state trivially does) yields only layers with
empty materials — the derivation is computed only on demand. -/
theorem c5_materials_derivation :
    (∀ (tn : List String) (matr : List (Nat × Nat)) (layer : LXOLayer),
      dget "MATR" layer.ptags = some matr →
      (∀ pt ∈ matr, pt.2 < tn.length) →
      layer.materials = [] →
      ∃ mats, generateMaterials (some tn) layer = .ok { layer with materials := mats } ∧
        ∀ name, dget name mats =
          if matrPolys tn matr name = [] then none else some (matrPolys tn matr name))
    ∧ (∀ (tagnames : Option (List String)) (layer : LXOLayer),
        dget "MATR" layer.ptags = none →
        generateMaterials tagnames layer = .ok layer)
    ∧ (generateMaterials (some ["Red", "Blue"])
        { mkLayer "L" 0 0 0 with ptags := [("MATR", [(0, 0), (1, 0), (2, 1)])] } =
        .ok { mkLayer "L" 0 0 0 with
              ptags := [("MATR", [(0, 0), (1, 0), (2, 1)])]
              materials := [("Red", [0, 1]), ("Blue", [2])] })
    ∧ (∀ (tags : List String) (fuel : Nat) (s s1 : St),
        readChunksLoop tags fuel s = .ok s1 →
        matInv s.lxo s.currentLayer →
        ∀ l ∈ s1.lxo.layers, l.materials = []) := by
  refine ⟨?_, ?_, by decide, ?_⟩
  · intro tn matr layer hmatr hb hempty
    obtain ⟨mats', hrun, hchar⟩ := genAuxChar tn matr layer.materials hb
    refine ⟨mats', ?_, ?_⟩
    · unfold generateMaterials
      simp only [hmatr, hrun, pyBindOk]
    · intro name
      have hc := hchar name
      rw [hempty] at hc
      simpa [dget] using hc
  · intro tagnames layer h
    unfold generateMaterials
    simp only [h]
  · intro tags fuel s s1 h hinv
    exact readChunksLoopMats tags fuel s s1 h hinv

/-- Witness for `c5_materials_derivation`: the derivation applied to the
spec's concrete example layer, and the decode-invariant applied to a
one-chunk decode. -/
theorem c5_materials_derivation_witness :
    (∃ mats, generateMaterials (some ["Red", "Blue"])
        { mkLayer "L" 0 0 0 with ptags := [("MATR", [(0, 0), (1, 0), (2, 1)])] } =
        .ok { { mkLayer "L" 0 0 0 with ptags := [("MATR", [(0, 0), (1, 0), (2, 1)])] }
              with materials := mats } ∧
      ∀ name, dget name mats =
        if matrPolys ["Red", "Blue"] [(0, 0), (1, 0), (2, 1)] name = [] then none
        else some (matrPolys ["Red", "Blue"] [(0, 0), (1, 0), (2, 1)] name)) ∧
    (∀ l ∈ (St.mk ⟨[0x58, 0x58, 0x58, 0x58, 0, 0, 0, 0], 8, 0⟩ mkLXOFile
        none).lxo.layers, l.materials = []) := by
  constructor
  · exact c5_materials_derivation.1 ["Red", "Blue"] [(0, 0), (1, 0), (2, 1)]
      { mkLayer "L" 0 0 0 with ptags := [("MATR", [(0, 0), (1, 0), (2, 1)])] }
      (by decide) (by decide) (by decide)
  · exact c5_materials_derivation.2.2.2 [] 1
      ⟨⟨[0x58, 0x58, 0x58, 0x58, 0, 0, 0, 0], 0, 8⟩, mkLXOFile, none⟩
      ⟨⟨[0x58, 0x58, 0x58, 0x58, 0, 0, 0, 0], 8, 0⟩, mkLXOFile, none⟩
      (by decide) ⟨fun l hl => (by cases hl), fun l hl => (by cases hl)⟩
